import Mathlib

/-!
Shallow embedding of the scmtp-ticketing-service write path (command
handlers), projector, and query path, translated from the TypeScript
sources.  Machine integers are modelled as `Int`/`Nat`; timestamps are
`Int` milliseconds; JavaScript truthiness on optional strings and
numbers is modelled explicitly; SQL tables are lists of rows; the
`writeDb.transaction` BEGIN/COMMIT/ROLLBACK protocol is an explicit
state-restoring combinator.
-/

/-- `src/models/booking.ts` BookingStatus enum. -/
inductive BookingStatus
  | PENDING
  | RESERVED
  | CONFIRMED
  | CANCELLED
  | EXPIRED
  | REFUNDED
deriving DecidableEq, Repr

/-- seat_availability.status values (schema: AVAILABLE / LOCKED / BOOKED). -/
inductive SeatStatus
  | AVAILABLE
  | LOCKED
  | BOOKED
deriving DecidableEq, Repr

/-- A row of the `bookings` table (write model), per the schema and
`mapRowToBooking`.  The table has no version column. -/
structure Booking where
  id : String
  userId : String
  routeId : String
  scheduleId : String
  seatNumber : Option String
  passengerName : String
  passengerEmail : String
  passengerPhone : Option String
  price : Int
  currency : String
  status : BookingStatus
  paymentId : Option String
  reservedAt : Option Int
  confirmedAt : Option Int
  cancelledAt : Option Int
  expiresAt : Option Int
  createdAt : Int
  updatedAt : Int
deriving DecidableEq, Repr

/-- A row of `seat_availability` (unique on (schedule_id, seat_number)). -/
structure SeatRow where
  scheduleId : String
  seatNumber : String
  bookingId : Option String
  status : SeatStatus
  lockedUntil : Option Int
  updatedAt : Int
deriving DecidableEq, Repr

/-- Typed rendering of the JSON payloads the handlers serialize into
`booking_events.payload`. -/
inductive EventPayload
  | booked (bookingId userId routeId scheduleId : String)
      (seatNumber : Option String) (price : Int)
  | reserved (bookingId userId routeId scheduleId : String)
      (seatNumber : Option String) (price : Int) (expiresAt : Int)
  | confirmed (bookingId paymentId : String) (confirmedAt : Int)
  | cancelled (bookingId userId : String) (reason : Option String)
      (cancelledAt : Int) (refundAmount : Option Int)
deriving DecidableEq, Repr

/-- A row of the `booking_events` event store. -/
structure EventRow where
  eventId : String
  eventType : String
  aggregateId : String
  aggregateType : String
  payload : EventPayload
  correlationId : Option String
  version : Nat
deriving DecidableEq, Repr

/-- The transactional write store: bookings, seat_availability and the
append-only booking_events table. -/
structure WriteStore where
  bookings : List Booking
  seats : List SeatRow
  events : List EventRow
deriving DecidableEq, Repr

/-- An event handed to `publishEvent` on the `ticket-events` topic
(keyed by the aggregate id). -/
structure PublishedEvent where
  eventType : String
  aggregateId : String
deriving DecidableEq, Repr

/-- Typed error kinds from `src/utils/errors.ts` (each carries the
constructor arguments the class receives). -/
inductive AppErr
  | badRequest (msg : String)
  | notFound (msg : String)
  | forbidden (msg : String)
  | insufficientSeats (msg : String)
  | invalidBookingState (currentState : BookingStatus) (requiredState : String)
  | validationFailed (msg : String)
deriving DecidableEq, Repr

/-- JavaScript truthiness of an optional string (`undefined` and the
empty string are falsy). -/
def jsTruthyStr : Option String → Bool
  | none => false
  | some s => s ≠ ""

/-- JavaScript `x || null` on an optional string field. -/
def jsOrNullStr (x : Option String) : Option String :=
  if jsTruthyStr x then x else none

/-- JavaScript `x || d` on an optional string with a string default. -/
def jsOrStr (x : Option String) (d : String) : String :=
  match x with
  | none => d
  | some s => if s = "" then d else s

/-- JavaScript truthiness of an optional number (0 is falsy). -/
def jsTruthyInt : Option Int → Bool
  | none => false
  | some v => v ≠ 0

/-- JavaScript `x || d` on an optional number with a numeric default. -/
def jsOrInt (x : Option Int) (d : Int) : Int :=
  match x with
  | none => d
  | some v => if v = 0 then d else v

/-- `SELECT * FROM bookings WHERE id = $1` (id is the primary key). -/
def findBooking (s : WriteStore) (id : String) : Option Booking :=
  s.bookings.find? (fun b => b.id == id)

/-- `SELECT ... FROM seat_availability WHERE schedule_id = $1 AND
seat_number = $2` (unique key). -/
def findSeat (s : WriteStore) (sch seat : String) : Option SeatRow :=
  s.seats.find? (fun r => r.scheduleId == sch && r.seatNumber == seat)

/-- `UPDATE ... WHERE p` applied to a list of rows. -/
def updateWhere (p : α → Bool) (f : α → α) : List α → List α :=
  List.map (fun x => if p x then f x else x)

/-- `writeDb.transaction`: BEGIN, run the callback, COMMIT on success;
ROLLBACK (restore the original store) and rethrow on error. -/
def transaction (body : WriteStore → Except AppErr (α × WriteStore))
    (s : WriteStore) : Except AppErr α × WriteStore :=
  match body s with
  | .ok (a, s1) => (.ok a, s1)
  | .error e => (.error e, s)

/-- `src/models/booking.ts` BookTicketCommand. -/
structure BookTicketCommand where
  userId : String
  routeId : String
  scheduleId : String
  seatNumber : Option String
  passengerName : String
  passengerEmail : String
  passengerPhone : Option String
  price : Int
  currency : Option String
deriving DecidableEq, Repr

/-- ReserveTicketCommand = BookTicketCommand plus an optional
reservationDurationMinutes. -/
structure ReserveTicketCommand where
  userId : String
  routeId : String
  scheduleId : String
  seatNumber : Option String
  passengerName : String
  passengerEmail : String
  passengerPhone : Option String
  price : Int
  currency : Option String
  reservationDurationMinutes : Option Int
deriving DecidableEq, Repr

/-- ConfirmTicketCommand. -/
structure ConfirmTicketCommand where
  bookingId : String
  paymentId : String
deriving DecidableEq, Repr

/-- CancelTicketCommand (userId optional at runtime for
service-to-service calls). -/
structure CancelTicketCommand where
  bookingId : String
  userId : Option String
  reason : Option String
deriving DecidableEq, Repr

/-- `validateBookTicketCommand` from bookTicket.ts: BadRequest on a
missing field or non-positive price. -/
def validateBookTicketCommand (c : BookTicketCommand) : Option AppErr :=
  if c.userId = "" then some (.badRequest "userId is required")
  else if c.routeId = "" then some (.badRequest "routeId is required")
  else if c.scheduleId = "" then some (.badRequest "scheduleId is required")
  else if c.passengerName = "" then some (.badRequest "passengerName is required")
  else if c.passengerEmail = "" then some (.badRequest "passengerEmail is required")
  else if c.price ≤ 0 then some (.badRequest "price must be greater than 0")
  else none

/-- `validateReserveTicketCommand` from reserveTicket.ts — identical
checks; it does not inspect reservationDurationMinutes. -/
def validateReserveTicketCommand (c : ReserveTicketCommand) : Option AppErr :=
  if c.userId = "" then some (.badRequest "userId is required")
  else if c.routeId = "" then some (.badRequest "routeId is required")
  else if c.scheduleId = "" then some (.badRequest "scheduleId is required")
  else if c.passengerName = "" then some (.badRequest "passengerName is required")
  else if c.passengerEmail = "" then some (.badRequest "passengerEmail is required")
  else if c.price ≤ 0 then some (.badRequest "price must be greater than 0")
  else none

/-- `validateConfirmTicketCommand` from confirmTicket.ts. -/
def validateConfirmTicketCommand (c : ConfirmTicketCommand) : Option AppErr :=
  if c.bookingId = "" then some (.badRequest "bookingId is required")
  else if c.paymentId = "" then some (.badRequest "paymentId is required")
  else none

/-- `validateCancelTicketCommand` from cancelTicket.ts (userId is
optional). -/
def validateCancelTicketCommand (c : CancelTicketCommand) : Option AppErr :=
  if c.bookingId = "" then some (.badRequest "bookingId is required")
  else none

/-- Transaction body of `bookTicketHandler`: optional seat check
(status = AVAILABLE), INSERT the PENDING booking, seat → BOOKED,
INSERT the TICKET_BOOKED event at version 1. -/
def bookBody (c : BookTicketCommand) (corr : Option String) (now : Int)
    (bookingId eventId : String) (s : WriteStore) :
    Except AppErr (Booking × WriteStore) := do
  if jsTruthyStr c.seatNumber then
    let sn := jsOrStr c.seatNumber ""
    match s.seats.find? (fun r => r.scheduleId == c.scheduleId &&
        r.seatNumber == sn && r.status == SeatStatus.AVAILABLE) with
    | none => throw (.insufficientSeats ("Seat " ++ sn ++ " is not available"))
    | some _ => pure ()
  let booking : Booking :=
    { id := bookingId
      userId := c.userId
      routeId := c.routeId
      scheduleId := c.scheduleId
      seatNumber := jsOrNullStr c.seatNumber
      passengerName := c.passengerName
      passengerEmail := c.passengerEmail
      passengerPhone := jsOrNullStr c.passengerPhone
      price := c.price
      currency := jsOrStr c.currency "USD"
      status := .PENDING
      paymentId := none
      reservedAt := none
      confirmedAt := none
      cancelledAt := none
      expiresAt := none
      createdAt := now
      updatedAt := now }
  let s1 : WriteStore := { s with bookings := s.bookings ++ [booking] }
  let seats2 := updateWhere
    (fun r => r.scheduleId == c.scheduleId &&
      r.seatNumber == jsOrStr c.seatNumber "")
    (fun r => { r with
      status := .BOOKED
      bookingId := some bookingId
      updatedAt := now }) s1.seats
  let s2 : WriteStore :=
    { s1 with seats := if jsTruthyStr c.seatNumber then seats2 else s1.seats }
  let ev : EventRow :=
    { eventId := eventId
      eventType := "TICKET_BOOKED"
      aggregateId := bookingId
      aggregateType := "Booking"
      payload := .booked bookingId c.userId c.routeId c.scheduleId
        c.seatNumber c.price
      correlationId := jsOrNullStr corr
      version := 1 }
  pure (booking, { s2 with events := s2.events ++ [ev] })

/-- `bookTicketHandler`: validate, run the transaction, then publish
TICKET_BOOKED (outside the transaction, only on success). -/
def bookTicketHandler (c : BookTicketCommand) (corr : Option String)
    (now : Int) (bookingId eventId : String) (s : WriteStore) :
    Except AppErr Booking × WriteStore × List PublishedEvent :=
  match validateBookTicketCommand c with
  | some e => (.error e, s, [])
  | none =>
    match transaction (bookBody c corr now bookingId eventId) s with
    | (.ok b, s1) => (.ok b, s1, [⟨"TICKET_BOOKED", b.id⟩])
    | (.error e, s1) => (.error e, s1, [])

/-- DEFAULT_RESERVATION_DURATION_MINUTES in reserveTicket.ts. -/
def DEFAULT_RESERVATION_DURATION_MINUTES : Int := 15

/-- The WHERE clause of the reserve seat check:
`status = 'AVAILABLE' OR (status = 'LOCKED' AND locked_until < NOW())`
(SQL `NULL < NOW()` is not true). -/
def seatAcquirableRow (r : SeatRow) (now : Int) : Bool :=
  r.status == SeatStatus.AVAILABLE ||
    (r.status == SeatStatus.LOCKED &&
      (match r.lockedUntil with
       | some t => t < now
       | none => false))

/-- Transaction body of `reserveTicketHandler`: seat check with the
stale-lock rule, INSERT the RESERVED booking with expires_at, seat →
LOCKED until expires_at, INSERT the TICKET_RESERVED event at
version 1. -/
def reserveBody (c : ReserveTicketCommand) (corr : Option String)
    (now : Int) (bookingId eventId : String) (s : WriteStore) :
    Except AppErr ((Booking × Int) × WriteStore) := do
  if jsTruthyStr c.seatNumber then
    let sn := jsOrStr c.seatNumber ""
    match s.seats.find? (fun r => r.scheduleId == c.scheduleId &&
        r.seatNumber == sn && seatAcquirableRow r now) with
    | none => throw (.insufficientSeats ("Seat " ++ sn ++ " is not available"))
    | some _ => pure ()
  let reservationDuration :=
    jsOrInt c.reservationDurationMinutes DEFAULT_RESERVATION_DURATION_MINUTES
  let expiresAt : Int := now + reservationDuration * 60 * 1000
  let booking : Booking :=
    { id := bookingId
      userId := c.userId
      routeId := c.routeId
      scheduleId := c.scheduleId
      seatNumber := jsOrNullStr c.seatNumber
      passengerName := c.passengerName
      passengerEmail := c.passengerEmail
      passengerPhone := jsOrNullStr c.passengerPhone
      price := c.price
      currency := jsOrStr c.currency "USD"
      status := .RESERVED
      paymentId := none
      reservedAt := some now
      confirmedAt := none
      cancelledAt := none
      expiresAt := some expiresAt
      createdAt := now
      updatedAt := now }
  let s1 : WriteStore := { s with bookings := s.bookings ++ [booking] }
  let seats2 := updateWhere
    (fun r => r.scheduleId == c.scheduleId &&
      r.seatNumber == jsOrStr c.seatNumber "")
    (fun r => { r with
      status := .LOCKED
      bookingId := some bookingId
      lockedUntil := some expiresAt
      updatedAt := now }) s1.seats
  let s2 : WriteStore :=
    { s1 with seats := if jsTruthyStr c.seatNumber then seats2 else s1.seats }
  let ev : EventRow :=
    { eventId := eventId
      eventType := "TICKET_RESERVED"
      aggregateId := bookingId
      aggregateType := "Booking"
      payload := .reserved bookingId c.userId c.routeId c.scheduleId
        c.seatNumber c.price expiresAt
      correlationId := jsOrNullStr corr
      version := 1 }
  pure ((booking, expiresAt), { s2 with events := s2.events ++ [ev] })

/-- `reserveTicketHandler`: validate, transaction, publish
TICKET_RESERVED on success. -/
def reserveTicketHandler (c : ReserveTicketCommand) (corr : Option String)
    (now : Int) (bookingId eventId : String) (s : WriteStore) :
    Except AppErr (Booking × Int) × WriteStore × List PublishedEvent :=
  match validateReserveTicketCommand c with
  | some e => (.error e, s, [])
  | none =>
    match transaction (reserveBody c corr now bookingId eventId) s with
    | (.ok r, s1) => (.ok r, s1, [⟨"TICKET_RESERVED", r.1.id⟩])
    | (.error e, s1) => (.error e, s1, [])

/-- Transaction body of `confirmTicketHandler`: lock the booking row,
reject missing / non-RESERVED-or-PENDING / expired, UPDATE to
CONFIRMED, seat → BOOKED with locked_until NULL, INSERT the
TICKET_CONFIRMED event with the hard-coded version 2. -/
def confirmBody (c : ConfirmTicketCommand) (corr : Option String)
    (now : Int) (eventId : String) (s : WriteStore) :
    Except AppErr (Booking × WriteStore) := do
  match findBooking s c.bookingId with
  | none => throw (.notFound ("Booking with ID " ++ c.bookingId ++ " not found"))
  | some existing =>
    if existing.status ≠ BookingStatus.RESERVED ∧
        existing.status ≠ BookingStatus.PENDING then
      throw (.invalidBookingState existing.status "RESERVED or PENDING")
    match existing.expiresAt with
    | some t =>
      if t < now then
        throw (.invalidBookingState existing.status "Reservation has expired")
    | none => pure ()
    let upd : Booking → Booking := fun b =>
      { b with
        status := .CONFIRMED
        paymentId := some c.paymentId
        confirmedAt := some now
        updatedAt := now
        expiresAt := none }
    let s1 : WriteStore :=
      { s with bookings := updateWhere (fun b => b.id == c.bookingId) upd s.bookings }
    let seats2 := updateWhere
      (fun r => r.scheduleId == existing.scheduleId &&
        r.seatNumber == jsOrStr existing.seatNumber "")
      (fun r => { r with
        status := .BOOKED
        lockedUntil := none
        updatedAt := now }) s1.seats
    let s2 : WriteStore :=
      { s1 with seats := if jsTruthyStr existing.seatNumber then seats2 else s1.seats }
    let ev : EventRow :=
      { eventId := eventId
        eventType := "TICKET_CONFIRMED"
        aggregateId := c.bookingId
        aggregateType := "Booking"
        payload := .confirmed c.bookingId c.paymentId now
        correlationId := jsOrNullStr corr
        version := 2 }
    pure (upd existing, { s2 with events := s2.events ++ [ev] })

/-- `confirmTicketHandler`: validate, transaction, publish
TICKET_CONFIRMED on success. -/
def confirmTicketHandler (c : ConfirmTicketCommand) (corr : Option String)
    (now : Int) (eventId : String) (s : WriteStore) :
    Except AppErr Booking × WriteStore × List PublishedEvent :=
  match validateConfirmTicketCommand c with
  | some e => (.error e, s, [])
  | none =>
    match transaction (confirmBody c corr now eventId) s with
    | (.ok b, s1) => (.ok b, s1, [⟨"TICKET_CONFIRMED", b.id⟩])
    | (.error e, s1) => (.error e, s1, [])

/-- Transaction body of `cancelTicketHandler`: lock the booking row,
ownership check, cancellable-state check, refund computation, UPDATE
to CANCELLED, seat → AVAILABLE, INSERT the TICKET_CANCELLED event with
the hard-coded version 2. -/
def cancelBody (c : CancelTicketCommand) (corr : Option String)
    (now : Int) (eventId : String) (s : WriteStore) :
    Except AppErr ((Booking × Option Int) × WriteStore) := do
  match findBooking s c.bookingId with
  | none => throw (.notFound ("Booking with ID " ++ c.bookingId ++ " not found"))
  | some existing =>
    let actualUserId := jsOrStr c.userId existing.userId
    if actualUserId = "" then
      throw (.badRequest "userId is required")
    if jsTruthyStr c.userId ∧ existing.userId ≠ jsOrStr c.userId "" then
      throw (.forbidden "You are not authorized to cancel this booking")
    if existing.status ≠ BookingStatus.PENDING ∧
        existing.status ≠ BookingStatus.RESERVED ∧
        existing.status ≠ BookingStatus.CONFIRMED then
      throw (.invalidBookingState existing.status
        "PENDING or RESERVED or CONFIRMED")
    let refundAmount : Option Int :=
      if existing.status = BookingStatus.CONFIRMED then some existing.price
      else none
    let upd : Booking → Booking := fun b =>
      { b with
        status := .CANCELLED
        cancelledAt := some now
        updatedAt := now
        expiresAt := none }
    let s1 : WriteStore :=
      { s with bookings := updateWhere (fun b => b.id == c.bookingId) upd s.bookings }
    let seats2 := updateWhere
      (fun r => r.scheduleId == existing.scheduleId &&
        r.seatNumber == jsOrStr existing.seatNumber "")
      (fun r => { r with
        status := .AVAILABLE
        bookingId := none
        lockedUntil := none
        updatedAt := now }) s1.seats
    let s2 : WriteStore :=
      { s1 with seats := if jsTruthyStr existing.seatNumber then seats2 else s1.seats }
    let ev : EventRow :=
      { eventId := eventId
        eventType := "TICKET_CANCELLED"
        aggregateId := c.bookingId
        aggregateType := "Booking"
        payload := .cancelled c.bookingId actualUserId c.reason now refundAmount
        correlationId := jsOrNullStr corr
        version := 2 }
    pure ((upd existing, refundAmount), { s2 with events := s2.events ++ [ev] })

/-- `cancelTicketHandler`: validate, transaction, publish
TICKET_CANCELLED on success. -/
def cancelTicketHandler (c : CancelTicketCommand) (corr : Option String)
    (now : Int) (eventId : String) (s : WriteStore) :
    Except AppErr (Booking × Option Int) × WriteStore × List PublishedEvent :=
  match validateCancelTicketCommand c with
  | some e => (.error e, s, [])
  | none =>
    match transaction (cancelBody c corr now eventId) s with
    | (.ok r, s1) => (.ok r, s1, [⟨"TICKET_CANCELLED", r.1.id⟩])
    | (.error e, s1) => (.error e, s1, [])

/-- A row of `user_tickets_view` (read model). -/
structure TicketViewRow where
  id : String
  userId : String
  routeId : String
  scheduleId : String
  seatNumber : Option String
  passengerName : String
  passengerEmail : String
  price : Int
  currency : String
  status : BookingStatus
  createdAt : Int
  updatedAt : Int
deriving DecidableEq, Repr

/-- A row of `schedule_availability_view` (available_seats is a stored
generated column, total_seats − booked_seats). -/
structure ScheduleAvailRow where
  scheduleId : String
  totalSeats : Int
  bookedSeats : Int
  updatedAt : Int
deriving DecidableEq, Repr

/-- The read store: tickets view, schedule availability view, and the
`ticket_projector` checkpoint row. -/
structure ReadStore where
  tickets : List TicketViewRow
  schedules : List ScheduleAvailRow
  checkpoint : Option String
deriving DecidableEq, Repr

/-- The parsed JSON message the projector receives; JavaScript reads
payload fields dynamically, so all payload fields live side by side
(irrelevant ones are simply never read by a given case). -/
structure ProjEvent where
  eventId : String
  eventType : String
  aggregateId : String
  timestamp : Int
  bookingId : String
  userId : String
  routeId : String
  scheduleId : String
  seatNumber : Option String
  passengerName : String
  passengerEmail : String
  price : Int
  currency : String
deriving DecidableEq, Repr

/-- `updateScheduleAvailability`: INSERT (schedule_id, 50,
GREATEST(0, delta)) ON CONFLICT DO UPDATE booked_seats =
GREATEST(0, booked_seats + delta). -/
def updateScheduleAvailability (scheduleId : String) (delta : Int)
    (now : Int) (r : ReadStore) : ReadStore :=
  let updated := updateWhere (fun x => x.scheduleId == scheduleId)
    (fun x => { x with
      bookedSeats := max 0 (x.bookedSeats + delta)
      updatedAt := now }) r.schedules
  let inserted := r.schedules ++
    [{ scheduleId := scheduleId, totalSeats := 50,
       bookedSeats := max 0 delta, updatedAt := now }]
  if r.schedules.any (fun x => x.scheduleId == scheduleId) then
    { r with schedules := updated }
  else
    { r with schedules := inserted }

/-- `handleTicketBooked`: INSERT the view row (status 'PENDING',
created_at = event timestamp) ON CONFLICT (id) DO UPDATE SET status =
EXCLUDED.status, updated_at = NOW(); then bookedSeats += 1. -/
def handleTicketBooked (now : Int) (e : ProjEvent) (r : ReadStore) : ReadStore :=
  let updated := updateWhere (fun t => t.id == e.bookingId)
    (fun t => { t with status := .PENDING, updatedAt := now }) r.tickets
  let inserted := r.tickets ++
    [{ id := e.bookingId, userId := e.userId, routeId := e.routeId,
       scheduleId := e.scheduleId, seatNumber := e.seatNumber,
       passengerName := e.passengerName, passengerEmail := e.passengerEmail,
       price := e.price, currency := e.currency, status := .PENDING,
       createdAt := e.timestamp, updatedAt := now }]
  let r1 :=
    if r.tickets.any (fun t => t.id == e.bookingId) then
      { r with tickets := updated }
    else
      { r with tickets := inserted }
  updateScheduleAvailability e.scheduleId 1 now r1

/-- `handleTicketReserved`: same upsert with status 'RESERVED'. -/
def handleTicketReserved (now : Int) (e : ProjEvent) (r : ReadStore) : ReadStore :=
  let updated := updateWhere (fun t => t.id == e.bookingId)
    (fun t => { t with status := .RESERVED, updatedAt := now }) r.tickets
  let inserted := r.tickets ++
    [{ id := e.bookingId, userId := e.userId, routeId := e.routeId,
       scheduleId := e.scheduleId, seatNumber := e.seatNumber,
       passengerName := e.passengerName, passengerEmail := e.passengerEmail,
       price := e.price, currency := e.currency, status := .RESERVED,
       createdAt := e.timestamp, updatedAt := now }]
  let r1 :=
    if r.tickets.any (fun t => t.id == e.bookingId) then
      { r with tickets := updated }
    else
      { r with tickets := inserted }
  updateScheduleAvailability e.scheduleId 1 now r1

/-- `handleTicketConfirmed`: UPDATE status = 'CONFIRMED' by id. -/
def handleTicketConfirmed (now : Int) (e : ProjEvent) (r : ReadStore) : ReadStore :=
  let updated := updateWhere (fun t => t.id == e.bookingId)
    (fun t => { t with status := .CONFIRMED, updatedAt := now }) r.tickets
  { r with tickets := updated }

/-- `handleTicketCancelled`: read the row's schedule_id, UPDATE status
= 'CANCELLED' by id, and if the row was found, bookedSeats -= 1. -/
def handleTicketCancelled (now : Int) (e : ProjEvent) (r : ReadStore) : ReadStore :=
  let booking := r.tickets.find? (fun t => t.id == e.bookingId)
  let updated := updateWhere (fun t => t.id == e.bookingId)
    (fun t => { t with status := .CANCELLED, updatedAt := now }) r.tickets
  let r1 := { r with tickets := updated }
  match booking with
  | some t => updateScheduleAvailability t.scheduleId (-1) now r1
  | none => r1

/-- `updateCheckpoint`: upsert the `ticket_projector` checkpoint row. -/
def updateCheckpoint (eventId : String) (r : ReadStore) : ReadStore :=
  { r with checkpoint := some eventId }

/-- `ticketProjector.processMessage`: dispatch on the eventType header
(only BOOKED / RESERVED / CONFIRMED / CANCELLED have cases; anything
else — including TICKET_EXPIRED — only logs a warning), then advance
the checkpoint. -/
def processMessage (now : Int) (e : ProjEvent) (r : ReadStore) : ReadStore :=
  let r1 :=
    if e.eventType == "TICKET_BOOKED" then handleTicketBooked now e r
    else if e.eventType == "TICKET_RESERVED" then handleTicketReserved now e r
    else if e.eventType == "TICKET_CONFIRMED" then handleTicketConfirmed now e r
    else if e.eventType == "TICKET_CANCELLED" then handleTicketCancelled now e r
    else r
  updateCheckpoint e.eventId r1

/-- `GetUserTicketsQuery` DTO. -/
structure GetUserTicketsQuery where
  userId : String
  status : Option BookingStatus
  page : Option Int
  limit : Option Int
deriving DecidableEq, Repr

/-- The paginated response of the list-user-tickets query. -/
structure PaginatedTickets where
  data : List TicketViewRow
  total : Int
  page : Int
  limit : Int
  totalPages : Int
deriving DecidableEq, Repr

/-- `validateQuery` in getUserTickets.ts: `query.page && query.page <
1` and `query.limit && query.limit < 1` use JavaScript truthiness, so
a page or limit of 0 skips the check. -/
def validateGetUserTicketsQuery (q : GetUserTicketsQuery) : Option AppErr :=
  if q.userId = "" then some (.badRequest "userId is required")
  else if jsTruthyInt q.page ∧ jsOrInt q.page 1 < 1 then
    some (.badRequest "page must be at least 1")
  else if jsTruthyInt q.limit ∧ jsOrInt q.limit 1 < 1 then
    some (.badRequest "limit must be at least 1")
  else none

/-- Insertion of one row into a list sorted by created_at descending
(ORDER BY created_at DESC). -/
def insertByCreatedDesc (t : TicketViewRow) : List TicketViewRow → List TicketViewRow
  | [] => [t]
  | x :: xs =>
    if x.createdAt ≤ t.createdAt then t :: x :: xs
    else x :: insertByCreatedDesc t xs

/-- ORDER BY created_at DESC over the filtered rows. -/
def sortByCreatedDesc : List TicketViewRow → List TicketViewRow
  | [] => []
  | x :: xs => insertByCreatedDesc x (sortByCreatedDesc xs)

/-- DEFAULT_PAGE / DEFAULT_LIMIT / MAX_LIMIT in getUserTickets.ts. -/
def DEFAULT_PAGE : Int := 1

/-- Default page size. -/
def DEFAULT_LIMIT : Int := 10

/-- Upper clamp applied by Math.min. -/
def MAX_LIMIT : Int := 100

/-- `getUserTicketsHandler`: validate, apply defaults and the
Math.min(limit, 100) clamp, filter by user (and optional status),
count, order by created_at descending, and slice LIMIT/OFFSET.
The cache layer is an external collaborator and is not modelled. -/
def getUserTicketsHandler (q : GetUserTicketsQuery) (r : ReadStore) :
    Except AppErr PaginatedTickets :=
  match validateGetUserTicketsQuery q with
  | some e => .error e
  | none =>
    let page := jsOrInt q.page DEFAULT_PAGE
    let limit := min (jsOrInt q.limit DEFAULT_LIMIT) MAX_LIMIT
    let offset := (page - 1) * limit
    let rows := r.tickets.filter (fun t =>
      t.userId == q.userId &&
        (match q.status with
         | some st => t.status == st
         | none => true))
    let total : Int := rows.length
    let pageRows := ((sortByCreatedDesc rows).drop offset.toNat).take limit.toNat
    .ok { data := pageRows, total := total, page := page, limit := limit,
          totalPages := (total + limit - 1) / limit }

/-- The Zod rule for reservationDurationMinutes in
`schemas.reserveTicket` (middleware/validate.ts):
`z.number().min(5).max(60).optional()`. -/
def zodReservationDurationOk : Option Int → Bool
  | none => true
  | some v => 5 ≤ v ∧ v ≤ 60

/-- The `validate` middleware: a failing schema parse is surfaced as a
ValidationError (HTTP 422), distinct from BadRequest (HTTP 400). -/
def validateMiddleware (schemaOk : Bool) : Except AppErr Unit :=
  if schemaOk then .ok () else .error (.validationFailed "Validation failed")

/-- Membership in an `updateWhere` image comes from a source row,
transformed when the predicate held. -/
theorem mem_updateWhere {α} {p : α → Bool} {f : α → α} {l : List α} {y : α}
    (hy : y ∈ updateWhere p f l) :
    ∃ x ∈ l, (p x = true ∧ y = f x) ∨ (p x = false ∧ y = x) := by
  unfold updateWhere at hy
  rcases List.mem_map.1 hy with ⟨x, hx, hxy⟩
  by_cases h : p x = true
  · exact ⟨x, hx, Or.inl ⟨h, by simp [h] at hxy; exact hxy.symm⟩⟩
  · have h' : p x = false := by simpa using h
    exact ⟨x, hx, Or.inr ⟨h', by simp [h'] at hxy; exact hxy.symm⟩⟩

/-- `find?` over an `updateWhere` with a predicate the transform
preserves returns the transformed first match. -/
theorem find?_updateWhere {α} (p : α → Bool) (f : α → α)
    (hp : ∀ x, p (f x) = p x) (l : List α) :
    (updateWhere p f l).find? p = (l.find? p).map f := by
  induction l with
  | nil => rfl
  | cons x xs ih =>
    by_cases hx : p x = true
    · simp [updateWhere, List.map_cons, List.find?_cons_of_pos, hx, hp]
    · have hx' : p x = false := by simpa using hx
      simp only [updateWhere, List.map_cons] at ih ⊢
      rw [if_neg (by simp [hx'])]
      rw [List.find?_cons_of_neg _ (by simp [hx']),
        List.find?_cons_of_neg _ (by simp [hx'])]
      exact ih

/-- When at most one row matches `p` (all later rows fail `p` once one
matched), restricting `find?` by an extra conjunct `q` returns the
unique `p`-match iff it satisfies `q`. -/
theorem find?_and_unique {α} {p q : α → Bool} {l : List α}
    (hpw : l.Pairwise (fun a b => p a = true → p b = false)) {r : α}
    (h : l.find? p = some r) :
    l.find? (fun x => p x && q x) = if q r then some r else none := by
  induction l with
  | nil => simp at h
  | cons x xs ih =>
    rcases List.pairwise_cons.1 hpw with ⟨hx, hxs⟩
    by_cases hpx : p x = true
    · have hr : r = x := by
        rw [List.find?_cons_of_pos _ hpx] at h
        exact (Option.some.inj h).symm
      subst hr
      by_cases hq : q r = true
      · rw [List.find?_cons_of_pos _ (by simp [hpx, hq])]
        simp [hq]
      · have hq' : q r = false := by simpa using hq
        rw [List.find?_cons_of_neg _ (by simp [hpx, hq'])]
        rw [if_neg (by simp [hq'])]
        apply List.find?_eq_none.2
        intro b hb
        simp [hx b hb hpx]
    · have hpx' : p x = false := by simpa using hpx
      rw [List.find?_cons_of_neg _ (by simp [hpx'] : ¬p x = true)] at h
      rw [List.find?_cons_of_neg _ (by simp [hpx'])]
      exact ih hxs h

/-- An empty write store. -/
def emptyWriteStore : WriteStore := ⟨[], [], []⟩

/-- An empty read store. -/
def emptyReadStore : ReadStore := ⟨[], [], none⟩

/-- A well-formed reserve command (no seat, default duration). -/
def sampleReserveCmd : ReserveTicketCommand :=
  ⟨"u1", "r1", "s1", none, "Alice", "alice@example.com", none, 25, none, none⟩

/-- Write store after Reserve at t = 0 (event TICKET_RESERVED v1). -/
def c1Store1 : WriteStore :=
  (reserveTicketHandler sampleReserveCmd none 0 "b1" "e1" emptyWriteStore).2.1

/-- ... then Confirm at t = 1 (event TICKET_CONFIRMED v2). -/
def c1Store2 : WriteStore :=
  (confirmTicketHandler ⟨"b1", "p1"⟩ none 1 "e2" c1Store1).2.1

/-- ... then Cancel at t = 2 (event TICKET_CANCELLED, also v2). -/
def c1Store3 : WriteStore :=
  (cancelTicketHandler ⟨"b1", some "u1", none⟩ none 2 "e3" c1Store2).2.1

/-- C1: `version` strictly increases by 1 on every persisted mutation,
each transition writes one booking_events row with that version, so the
event count equals the current version.  The code instead hard-codes
version 2 in both Confirm and Cancel, so the legal chain
Reserve → Confirm → Cancel stores versions [1, 2, 2] — the third
transition does not write previous + 1 = 3, and the 3 event rows do not
match any version-3 state. -/
theorem c1_confirm_cancel_event_versions :
    c1Store3.events.map (fun e => (e.eventType, e.version)) =
      [("TICKET_RESERVED", 1), ("TICKET_CONFIRMED", 2), ("TICKET_CANCELLED", 2)] ∧
    c1Store3.events.length = 3 := by
  constructor
  · rfl
  · rfl

/-- Projector event: TICKET_BOOKED for booking b1. -/
def bookedProjEvent : ProjEvent :=
  ⟨"ev1", "TICKET_BOOKED", "b1", 100, "b1", "u1", "r1", "s1", none,
    "Alice", "alice@example.com", 25, "USD"⟩

/-- Projector event: TICKET_CONFIRMED for booking b1. -/
def confirmedProjEvent : ProjEvent :=
  ⟨"ev2", "TICKET_CONFIRMED", "b1", 101, "b1", "u1", "r1", "s1", none,
    "Alice", "alice@example.com", 25, "USD"⟩

/-- Read store after projecting TICKET_BOOKED then TICKET_CONFIRMED once. -/
def c3Once : ReadStore :=
  processMessage 10 confirmedProjEvent (processMessage 10 bookedProjEvent emptyReadStore)

/-- C3 counterexample: replaying the TICKET_BOOKED event on the store
where b1 is already CONFIRMED overwrites the status back to PENDING
(the claimed keep-existing-status rule does not exist in the code) and
increments bookedSeats from 1 to 2 (the projector is not idempotent). -/
theorem c3_projector_not_idempotent_cex :
    ((c3Once.tickets.find? (fun t => t.id == "b1")).map (fun t => t.status) =
        some BookingStatus.CONFIRMED) ∧
    (((processMessage 11 bookedProjEvent c3Once).tickets.find?
        (fun t => t.id == "b1")).map (fun t => t.status) =
        some BookingStatus.PENDING) ∧
    (c3Once.schedules.map (fun x => x.bookedSeats) = [1]) ∧
    ((processMessage 11 bookedProjEvent c3Once).schedules.map
        (fun x => x.bookedSeats) = [2]) := by
  refine ⟨rfl, rfl, rfl, rfl⟩

/-- C4: on any TICKET_EXPIRED message the projector only advances the
checkpoint: the switch in `ticketProjector.processMessage` has no case
for TICKET_EXPIRED, so the tickets view and the availability counters
are untouched. -/
theorem c4_projector_ignores_expired (now : Int) (e : ProjEvent)
    (r : ReadStore) (h : e.eventType = "TICKET_EXPIRED") :
    processMessage now e r = updateCheckpoint e.eventId r := by
  simp only [processMessage, h]
  rw [if_neg (by decide), if_neg (by decide), if_neg (by decide),
    if_neg (by decide)]

/-- A view row for a RESERVED ticket. -/
def reservedViewRow : TicketViewRow :=
  ⟨"b1", "u1", "r1", "s1", some "A1", "Alice", "alice@example.com", 25,
    "USD", .RESERVED, 0, 0⟩

/-- A read store holding the RESERVED row and one availability row. -/
def sampleReadStore : ReadStore := ⟨[reservedViewRow], [⟨"s1", 50, 1, 0⟩], none⟩

/-- A TICKET_EXPIRED message for booking b1. -/
def expiredProjEvent : ProjEvent :=
  ⟨"ev3", "TICKET_EXPIRED", "b1", 102, "b1", "u1", "r1", "s1", some "A1",
    "Alice", "alice@example.com", 25, "USD"⟩

/-- Witness for C4 at a concrete RESERVED row. -/
theorem c4_projector_ignores_expired_witness :
    processMessage 12 expiredProjEvent sampleReadStore =
      updateCheckpoint "ev3" sampleReadStore :=
  c4_projector_ignores_expired 12 expiredProjEvent sampleReadStore rfl

/-- A reserve command asking for a 4-minute reservation. -/
def c8ReserveCmd : ReserveTicketCommand :=
  ⟨"u1", "r1", "s1", none, "Alice", "alice@example.com", none, 25, none, some 4⟩

/-- C8 counterexample: reservationDurationMinutes = 4 lies outside
[5, 60], yet `reserveTicketHandler` succeeds (no BadRequest): it
creates a RESERVED booking expiring 240000 ms (4 min) after now. -/
theorem c8_duration_four_not_badrequest_cex :
    ((reserveTicketHandler c8ReserveCmd none 0 "b1" "e1" emptyWriteStore).1.toOption.map
      (fun p => (p.1.status, p.2))) = some (BookingStatus.RESERVED, 240000) := by
  rfl

/-- C9 counterexample: a requested page of 0 is < 1 but does not fail
with BadRequest — JavaScript treats 0 as falsy in `query.page &&
query.page < 1`, so the query succeeds with the default page 1. -/
theorem c9_page_zero_not_badrequest_cex :
    getUserTicketsHandler ⟨"u1", none, some 0, none⟩ emptyReadStore =
      .ok ⟨[], 0, 1, 10, 0⟩ := by
  rfl

/-- The status recorded in the tickets view for a booking id. -/
def viewStatus (r : ReadStore) (id : String) : Option BookingStatus :=
  (r.tickets.find? (fun t => t.id == id)).map (fun t => t.status)

/-- All bookedSeats counters are nonnegative. -/
def nonnegSeats (l : List ScheduleAvailRow) : Prop :=
  ∀ x ∈ l, 0 ≤ x.bookedSeats

/-- A true `any` yields a `find?` hit. -/
theorem find?_isSome_of_any {α} {p : α → Bool} {l : List α}
    (h : l.any p = true) : ∃ x, l.find? p = some x := by
  rcases List.any_eq_true.1 h with ⟨x, hx, hpx⟩
  cases hfind : l.find? p with
  | none => exact absurd hpx (by simpa using List.find?_eq_none.1 hfind x hx)
  | some y => exact ⟨y, rfl⟩

/-- The checkpoint upsert does not touch the tickets view. -/
theorem viewStatus_updateCheckpoint (i : String) (r : ReadStore) (id : String) :
    viewStatus (updateCheckpoint i r) id = viewStatus r id := rfl

/-- The availability upsert does not touch the tickets view. -/
theorem viewStatus_updateScheduleAvailability (sch : String) (d now : Int)
    (r : ReadStore) (id : String) :
    viewStatus (updateScheduleAvailability sch d now r) id = viewStatus r id := by
  unfold updateScheduleAvailability
  split <;> rfl

/-- The availability upsert keeps every counter nonnegative: both the
insert and the update clamp with GREATEST(0, ...). -/
theorem nonnegSeats_updateScheduleAvailability (sch : String) (d now : Int)
    (r : ReadStore) (hr : nonnegSeats r.schedules) :
    nonnegSeats (updateScheduleAvailability sch d now r).schedules := by
  unfold updateScheduleAvailability
  split
  · intro x hx
    rcases mem_updateWhere hx with ⟨y, hy, hcase⟩
    rcases hcase with ⟨hp, hxy⟩ | ⟨hp, hxy⟩ <;> subst hxy
    · exact le_max_left 0 _
    · exact hr _ hy
  · intro x hx
    rcases List.mem_append.1 hx with hx | hx
    · exact hr x hx
    · rcases List.mem_singleton.1 hx with rfl
      exact le_max_left 0 _

/-- C3, amended: the projector is not idempotent — applying
TICKET_BOOKED (resp. TICKET_RESERVED) to an existing TicketView row
always overwrites the status with PENDING (resp. RESERVED), whatever
the previous status was, and re-applies the bookedSeats increment;
bookedSeats never goes below zero since every adjustment is clamped at
zero. -/
theorem c3_projector_overwrite_and_clamp :
    (∀ (now : Int) (e : ProjEvent) (r : ReadStore),
      e.eventType = "TICKET_BOOKED" →
      r.tickets.any (fun t => t.id == e.bookingId) = true →
      viewStatus (processMessage now e r) e.bookingId = some .PENDING) ∧
    (∀ (now : Int) (e : ProjEvent) (r : ReadStore),
      e.eventType = "TICKET_RESERVED" →
      r.tickets.any (fun t => t.id == e.bookingId) = true →
      viewStatus (processMessage now e r) e.bookingId = some .RESERVED) ∧
    (∀ (now : Int) (e : ProjEvent) (r : ReadStore),
      nonnegSeats r.schedules →
      nonnegSeats (processMessage now e r).schedules) := by
  refine ⟨?_, ?_, ?_⟩
  · intro now e r h hany
    simp only [processMessage, h]
    rw [if_pos (by decide)]
    rw [viewStatus_updateCheckpoint]
    simp only [handleTicketBooked]
    rw [if_pos hany, viewStatus_updateScheduleAvailability]
    rcases find?_isSome_of_any hany with ⟨t, ht⟩
    unfold viewStatus
    rw [find?_updateWhere (fun t => t.id == e.bookingId)
      (fun t => { t with status := BookingStatus.PENDING, updatedAt := now })
      (fun x => rfl) r.tickets, ht]
    rfl
  · intro now e r h hany
    simp only [processMessage, h]
    rw [if_neg (by decide), if_pos (by decide)]
    rw [viewStatus_updateCheckpoint]
    simp only [handleTicketReserved]
    rw [if_pos hany, viewStatus_updateScheduleAvailability]
    rcases find?_isSome_of_any hany with ⟨t, ht⟩
    unfold viewStatus
    rw [find?_updateWhere (fun t => t.id == e.bookingId)
      (fun t => { t with status := BookingStatus.RESERVED, updatedAt := now })
      (fun x => rfl) r.tickets, ht]
    rfl
  · intro now e r hr
    show nonnegSeats (updateCheckpoint e.eventId _).schedules
    have hck : ∀ x : ReadStore, (updateCheckpoint e.eventId x).schedules = x.schedules :=
      fun _ => rfl
    rw [hck]
    split
    · simp only [handleTicketBooked]
      split
      · exact nonnegSeats_updateScheduleAvailability _ _ _ _ hr
      · exact nonnegSeats_updateScheduleAvailability _ _ _ _ hr
    split
    · simp only [handleTicketReserved]
      split
      · exact nonnegSeats_updateScheduleAvailability _ _ _ _ hr
      · exact nonnegSeats_updateScheduleAvailability _ _ _ _ hr
    split
    · exact hr
    split
    · simp only [handleTicketCancelled]
      split
      · exact nonnegSeats_updateScheduleAvailability _ _ _ _ hr
      · exact hr
    · exact hr

/-- Witness for C3 at the concrete replayed store. -/
theorem c3_projector_overwrite_and_clamp_witness :
    viewStatus (processMessage 11 bookedProjEvent c3Once)
      bookedProjEvent.bookingId = some BookingStatus.PENDING :=
  c3_projector_overwrite_and_clamp.1 11 bookedProjEvent c3Once rfl (by decide)

/-- No booking row is EXPIRED and no event row is a TICKET_EXPIRED. -/
def noExpiredState (s : WriteStore) : Prop :=
  (∀ b ∈ s.bookings, b.status ≠ BookingStatus.EXPIRED) ∧
  (∀ ev ∈ s.events, ev.eventType ≠ "TICKET_EXPIRED")

/-- On success, the Book transaction only adds a PENDING booking and a
TICKET_BOOKED event row. -/
theorem bookBody_ok {c : BookTicketCommand} {corr : Option String} {now : Int}
    {bid eid : String} {s : WriteStore} {b : Booking} {s1 : WriteStore}
    (h : bookBody c corr now bid eid s = .ok (b, s1)) :
    (∀ x ∈ s1.bookings, x ∈ s.bookings ∨ x.status = BookingStatus.PENDING) ∧
    (∀ ev ∈ s1.events, ev ∈ s.events ∨ ev.eventType = "TICKET_BOOKED") := by
  unfold bookBody at h
  split at h
  · simp only [Bind.bind, Except.bind, throw, throwThe, MonadExceptOf.throw,
      pure, Except.pure] at h
    split at h
    · exact absurd h (by simp)
    · rw [Except.ok.injEq, Prod.mk.injEq] at h
      obtain ⟨hb, hs1⟩ := h
      subst hs1
      refine ⟨?_, ?_⟩
      · intro x hx
        rcases List.mem_append.1 hx with hx | hx
        · exact Or.inl hx
        · rcases List.mem_singleton.1 hx with rfl
          exact Or.inr rfl
      · intro ev hev
        rcases List.mem_append.1 hev with hev | hev
        · exact Or.inl hev
        · rcases List.mem_singleton.1 hev with rfl
          exact Or.inr rfl
  · simp only [Bind.bind, Except.bind, throw, throwThe, MonadExceptOf.throw,
      pure, Except.pure] at h
    rw [Except.ok.injEq, Prod.mk.injEq] at h
    obtain ⟨hb, hs1⟩ := h
    subst hs1
    refine ⟨?_, ?_⟩
    · intro x hx
      rcases List.mem_append.1 hx with hx | hx
      · exact Or.inl hx
      · rcases List.mem_singleton.1 hx with rfl
        exact Or.inr rfl
    · intro ev hev
      rcases List.mem_append.1 hev with hev | hev
      · exact Or.inl hev
      · rcases List.mem_singleton.1 hev with rfl
        exact Or.inr rfl

/-- On success, the Reserve transaction only adds a RESERVED booking
and a TICKET_RESERVED event row. -/
theorem reserveBody_ok {c : ReserveTicketCommand} {corr : Option String} {now : Int}
    {bid eid : String} {s : WriteStore} {res : Booking × Int} {s1 : WriteStore}
    (h : reserveBody c corr now bid eid s = .ok (res, s1)) :
    (∀ x ∈ s1.bookings, x ∈ s.bookings ∨ x.status = BookingStatus.RESERVED) ∧
    (∀ ev ∈ s1.events, ev ∈ s.events ∨ ev.eventType = "TICKET_RESERVED") := by
  unfold reserveBody at h
  split at h
  · simp only [Bind.bind, Except.bind, throw, throwThe, MonadExceptOf.throw,
      pure, Except.pure] at h
    split at h
    · exact absurd h (by simp)
    · rw [Except.ok.injEq, Prod.mk.injEq] at h
      obtain ⟨hb, hs1⟩ := h
      subst hs1
      refine ⟨?_, ?_⟩
      · intro x hx
        rcases List.mem_append.1 hx with hx | hx
        · exact Or.inl hx
        · rcases List.mem_singleton.1 hx with rfl
          exact Or.inr rfl
      · intro ev hev
        rcases List.mem_append.1 hev with hev | hev
        · exact Or.inl hev
        · rcases List.mem_singleton.1 hev with rfl
          exact Or.inr rfl
  · simp only [Bind.bind, Except.bind, throw, throwThe, MonadExceptOf.throw,
      pure, Except.pure] at h
    rw [Except.ok.injEq, Prod.mk.injEq] at h
    obtain ⟨hb, hs1⟩ := h
    subst hs1
    refine ⟨?_, ?_⟩
    · intro x hx
      rcases List.mem_append.1 hx with hx | hx
      · exact Or.inl hx
      · rcases List.mem_singleton.1 hx with rfl
        exact Or.inr rfl
    · intro ev hev
      rcases List.mem_append.1 hev with hev | hev
      · exact Or.inl hev
      · rcases List.mem_singleton.1 hev with rfl
        exact Or.inr rfl

/-- On success, the Confirm transaction only rewrites bookings to
CONFIRMED and adds a TICKET_CONFIRMED event row. -/
theorem confirmBody_ok {c : ConfirmTicketCommand} {corr : Option String} {now : Int}
    {eid : String} {s : WriteStore} {b : Booking} {s1 : WriteStore}
    (h : confirmBody c corr now eid s = .ok (b, s1)) :
    (∀ x ∈ s1.bookings, x ∈ s.bookings ∨ x.status = BookingStatus.CONFIRMED) ∧
    (∀ ev ∈ s1.events, ev ∈ s.events ∨ ev.eventType = "TICKET_CONFIRMED") := by
  unfold confirmBody at h
  split at h
  · exact absurd h (by simp [throw, throwThe, MonadExceptOf.throw])
  · simp only [Bind.bind, Except.bind, throw, throwThe, MonadExceptOf.throw,
      pure, Except.pure] at h
    split at h
    · exact absurd h (by simp)
    · split at h
      · split at h
        · exact absurd h (by simp)
        · rw [Except.ok.injEq, Prod.mk.injEq] at h
          obtain ⟨hb, hs1⟩ := h
          subst hs1
          refine ⟨?_, ?_⟩
          · intro x hx
            rcases mem_updateWhere hx with ⟨y, hy, ⟨hp, hxy⟩ | ⟨hp, hxy⟩⟩ <;> subst hxy
            · exact Or.inr rfl
            · exact Or.inl hy
          · intro ev hev
            rcases List.mem_append.1 hev with hev | hev
            · exact Or.inl hev
            · rcases List.mem_singleton.1 hev with rfl
              exact Or.inr rfl
      · rw [Except.ok.injEq, Prod.mk.injEq] at h
        obtain ⟨hb, hs1⟩ := h
        subst hs1
        refine ⟨?_, ?_⟩
        · intro x hx
          rcases mem_updateWhere hx with ⟨y, hy, ⟨hp, hxy⟩ | ⟨hp, hxy⟩⟩ <;> subst hxy
          · exact Or.inr rfl
          · exact Or.inl hy
        · intro ev hev
          rcases List.mem_append.1 hev with hev | hev
          · exact Or.inl hev
          · rcases List.mem_singleton.1 hev with rfl
            exact Or.inr rfl

/-- On success, the Cancel transaction only rewrites bookings to
CANCELLED and adds a TICKET_CANCELLED event row. -/
theorem cancelBody_ok {c : CancelTicketCommand} {corr : Option String} {now : Int}
    {eid : String} {s : WriteStore} {res : Booking × Option Int} {s1 : WriteStore}
    (h : cancelBody c corr now eid s = .ok (res, s1)) :
    (∀ x ∈ s1.bookings, x ∈ s.bookings ∨ x.status = BookingStatus.CANCELLED) ∧
    (∀ ev ∈ s1.events, ev ∈ s.events ∨ ev.eventType = "TICKET_CANCELLED") := by
  unfold cancelBody at h
  split at h
  · exact absurd h (by simp [throw, throwThe, MonadExceptOf.throw])
  · simp only [Bind.bind, Except.bind, throw, throwThe, MonadExceptOf.throw,
      pure, Except.pure] at h
    split at h
    · exact absurd h (by simp)
    · split at h
      · exact absurd h (by simp)
      · split at h
        · exact absurd h (by simp)
        · rw [Except.ok.injEq, Prod.mk.injEq] at h
          obtain ⟨hb, hs1⟩ := h
          subst hs1
          refine ⟨?_, ?_⟩
          · intro x hx
            rcases mem_updateWhere hx with ⟨y, hy, ⟨hp, hxy⟩ | ⟨hp, hxy⟩⟩ <;> subst hxy
            · exact Or.inr rfl
            · exact Or.inl hy
          · intro ev hev
            rcases List.mem_append.1 hev with hev | hev
            · exact Or.inl hev
            · rcases List.mem_singleton.1 hev with rfl
              exact Or.inr rfl

/-- bookTicketHandler preserves the absence of EXPIRED state and never
publishes TICKET_EXPIRED. -/
theorem bookTicketHandler_noExpired {c : BookTicketCommand} {corr : Option String}
    {now : Int} {bid eid : String} {s : WriteStore} (hs : noExpiredState s) :
    noExpiredState (bookTicketHandler c corr now bid eid s).2.1 ∧
    ∀ p ∈ (bookTicketHandler c corr now bid eid s).2.2,
      p.eventType ≠ "TICKET_EXPIRED" := by
  unfold bookTicketHandler
  cases hv : validateBookTicketCommand c with
  | some e => exact ⟨hs, by simp⟩
  | none =>
    simp only
    unfold transaction
    cases hb : bookBody c corr now bid eid s with
    | error e => exact ⟨hs, by simp⟩
    | ok pr =>
      obtain ⟨b, s1⟩ := pr
      obtain ⟨h1, h2⟩ := bookBody_ok hb
      refine ⟨⟨?_, ?_⟩, ?_⟩
      · intro x hx
        rcases h1 x hx with hx' | hx'
        · exact hs.1 x hx'
        · rw [hx']; decide
      · intro ev hev
        rcases h2 ev hev with hev' | hev'
        · exact hs.2 ev hev'
        · rw [hev']; decide
      · intro p hp
        rcases List.mem_singleton.1 hp with rfl
        simp

/-- reserveTicketHandler preserves the absence of EXPIRED state and
never publishes TICKET_EXPIRED. -/
theorem reserveTicketHandler_noExpired {c : ReserveTicketCommand}
    {corr : Option String} {now : Int} {bid eid : String} {s : WriteStore}
    (hs : noExpiredState s) :
    noExpiredState (reserveTicketHandler c corr now bid eid s).2.1 ∧
    ∀ p ∈ (reserveTicketHandler c corr now bid eid s).2.2,
      p.eventType ≠ "TICKET_EXPIRED" := by
  unfold reserveTicketHandler
  cases hv : validateReserveTicketCommand c with
  | some e => exact ⟨hs, by simp⟩
  | none =>
    simp only
    unfold transaction
    cases hb : reserveBody c corr now bid eid s with
    | error e => exact ⟨hs, by simp⟩
    | ok pr =>
      obtain ⟨r, s1⟩ := pr
      obtain ⟨h1, h2⟩ := reserveBody_ok hb
      refine ⟨⟨?_, ?_⟩, ?_⟩
      · intro x hx
        rcases h1 x hx with hx' | hx'
        · exact hs.1 x hx'
        · rw [hx']; decide
      · intro ev hev
        rcases h2 ev hev with hev' | hev'
        · exact hs.2 ev hev'
        · rw [hev']; decide
      · intro p hp
        rcases List.mem_singleton.1 hp with rfl
        simp

/-- confirmTicketHandler preserves the absence of EXPIRED state and
never publishes TICKET_EXPIRED. -/
theorem confirmTicketHandler_noExpired {c : ConfirmTicketCommand}
    {corr : Option String} {now : Int} {eid : String} {s : WriteStore}
    (hs : noExpiredState s) :
    noExpiredState (confirmTicketHandler c corr now eid s).2.1 ∧
    ∀ p ∈ (confirmTicketHandler c corr now eid s).2.2,
      p.eventType ≠ "TICKET_EXPIRED" := by
  unfold confirmTicketHandler
  cases hv : validateConfirmTicketCommand c with
  | some e => exact ⟨hs, by simp⟩
  | none =>
    simp only
    unfold transaction
    cases hb : confirmBody c corr now eid s with
    | error e => exact ⟨hs, by simp⟩
    | ok pr =>
      obtain ⟨b, s1⟩ := pr
      obtain ⟨h1, h2⟩ := confirmBody_ok hb
      refine ⟨⟨?_, ?_⟩, ?_⟩
      · intro x hx
        rcases h1 x hx with hx' | hx'
        · exact hs.1 x hx'
        · rw [hx']; decide
      · intro ev hev
        rcases h2 ev hev with hev' | hev'
        · exact hs.2 ev hev'
        · rw [hev']; decide
      · intro p hp
        rcases List.mem_singleton.1 hp with rfl
        simp

/-- cancelTicketHandler preserves the absence of EXPIRED state and
never publishes TICKET_EXPIRED. -/
theorem cancelTicketHandler_noExpired {c : CancelTicketCommand}
    {corr : Option String} {now : Int} {eid : String} {s : WriteStore}
    (hs : noExpiredState s) :
    noExpiredState (cancelTicketHandler c corr now eid s).2.1 ∧
    ∀ p ∈ (cancelTicketHandler c corr now eid s).2.2,
      p.eventType ≠ "TICKET_EXPIRED" := by
  unfold cancelTicketHandler
  cases hv : validateCancelTicketCommand c with
  | some e => exact ⟨hs, by simp⟩
  | none =>
    simp only
    unfold transaction
    cases hb : cancelBody c corr now eid s with
    | error e => exact ⟨hs, by simp⟩
    | ok pr =>
      obtain ⟨r, s1⟩ := pr
      obtain ⟨h1, h2⟩ := cancelBody_ok hb
      refine ⟨⟨?_, ?_⟩, ?_⟩
      · intro x hx
        rcases h1 x hx with hx' | hx'
        · exact hs.1 x hx'
        · rw [hx']; decide
      · intro ev hev
        rcases h2 ev hev with hev' | hev'
        · exact hs.2 ev hev'
        · rw [hev']; decide
      · intro p hp
        rcases List.mem_singleton.1 hp with rfl
        simp

/-- The write-store mutations the running service can perform: exactly
the four command routes mounted under /tickets/commands.  `startServer`
only creates the Kafka topics, starts the projector consumer and the
HTTP listener — no periodic sweeper task exists, and
`eventPublisher.publishTicketExpired` has no caller. -/
inductive ServerOp
  | bookOp (c : BookTicketCommand) (corr : Option String) (now : Int)
      (bookingId eventId : String)
  | reserveOp (c : ReserveTicketCommand) (corr : Option String) (now : Int)
      (bookingId eventId : String)
  | confirmOp (c : ConfirmTicketCommand) (corr : Option String) (now : Int)
      (eventId : String)
  | cancelOp (c : CancelTicketCommand) (corr : Option String) (now : Int)
      (eventId : String)

/-- Run one command route against the write store, returning the
persisted store and the published events. -/
def runOp : ServerOp → WriteStore → WriteStore × List PublishedEvent
  | .bookOp c corr now bid eid, s => (bookTicketHandler c corr now bid eid s).2
  | .reserveOp c corr now bid eid, s => (reserveTicketHandler c corr now bid eid s).2
  | .confirmOp c corr now eid, s => (confirmTicketHandler c corr now eid s).2
  | .cancelOp c corr now eid, s => (cancelTicketHandler c corr now eid s).2

/-- Run a sequence of commands, accumulating published events. -/
def runOps : List ServerOp → WriteStore → WriteStore × List PublishedEvent
  | [], s => (s, [])
  | op :: ops, s =>
    ((runOps ops (runOp op s).1).1, (runOp op s).2 ++ (runOps ops (runOp op s).1).2)

/-- Any single command preserves the no-EXPIRED invariant. -/
theorem runOp_noExpired (op : ServerOp) (s : WriteStore) (hs : noExpiredState s) :
    noExpiredState (runOp op s).1 ∧
    ∀ p ∈ (runOp op s).2, p.eventType ≠ "TICKET_EXPIRED" := by
  cases op with
  | bookOp c corr now bid eid => exact bookTicketHandler_noExpired hs
  | reserveOp c corr now bid eid => exact reserveTicketHandler_noExpired hs
  | confirmOp c corr now eid => exact confirmTicketHandler_noExpired hs
  | cancelOp c corr now eid => exact cancelTicketHandler_noExpired hs

/-- C2: the claimed periodic expiry sweeper does not exist.  The
service's only write-path operations are the four commands; starting
from any store with no EXPIRED booking and no TICKET_EXPIRED event,
any sequence of service operations still has no EXPIRED booking, no
TICKET_EXPIRED event row, and publishes no TICKET_EXPIRED event — a
RESERVED booking whose expiresAt has passed is never expired. -/
theorem c2_no_expiry_sweeper (ops : List ServerOp) (s : WriteStore)
    (hs : noExpiredState s) :
    noExpiredState (runOps ops s).1 ∧
    ∀ p ∈ (runOps ops s).2, p.eventType ≠ "TICKET_EXPIRED" := by
  induction ops generalizing s with
  | nil => exact ⟨hs, by simp [runOps]⟩
  | cons op ops ih =>
    obtain ⟨h1, h2⟩ := runOp_noExpired op s hs
    obtain ⟨h3, h4⟩ := ih _ h1
    refine ⟨h3, ?_⟩
    intro p hp
    simp only [runOps] at hp
    rcases List.mem_append.1 hp with hp | hp
    · exact h2 p hp
    · exact h4 p hp

/-- A stale reservation made at t = 0 for 15 minutes, observed at
t = 10\,000\,000 ms (far past expiry). -/
def c2SampleOps : List ServerOp :=
  [ServerOp.reserveOp sampleReserveCmd none 0 "b1" "e1",
   ServerOp.cancelOp ⟨"b2", none, none⟩ none 10000000 "e2"]

/-- Witness for C2: running the service's operations past the expiry
instant leaves the stale RESERVED booking unexpired. -/
theorem c2_no_expiry_sweeper_witness :
    noExpiredState (runOps c2SampleOps emptyWriteStore).1 ∧
    ∀ p ∈ (runOps c2SampleOps emptyWriteStore).2,
      p.eventType ≠ "TICKET_EXPIRED" :=
  c2_no_expiry_sweeper c2SampleOps emptyWriteStore
    ⟨fun b hb => absurd hb (List.not_mem_nil b),
     fun ev hev => absurd hev (List.not_mem_nil ev)⟩

/-- C10: every command is atomic on error — whenever a handler returns
an error (validation failure, or any throw inside the transaction
callback, which `writeDb.transaction` answers with ROLLBACK), the
persisted write store is exactly the input store and no event is
published (publishing happens after the transaction, only on
success). -/
theorem c10_commands_atomic_on_error :
    (∀ (c : BookTicketCommand) (corr : Option String) (now : Int)
        (bid eid : String) (s : WriteStore) (e : AppErr),
      (bookTicketHandler c corr now bid eid s).1 = .error e →
      (bookTicketHandler c corr now bid eid s).2 = (s, [])) ∧
    (∀ (c : ReserveTicketCommand) (corr : Option String) (now : Int)
        (bid eid : String) (s : WriteStore) (e : AppErr),
      (reserveTicketHandler c corr now bid eid s).1 = .error e →
      (reserveTicketHandler c corr now bid eid s).2 = (s, [])) ∧
    (∀ (c : ConfirmTicketCommand) (corr : Option String) (now : Int)
        (eid : String) (s : WriteStore) (e : AppErr),
      (confirmTicketHandler c corr now eid s).1 = .error e →
      (confirmTicketHandler c corr now eid s).2 = (s, [])) ∧
    (∀ (c : CancelTicketCommand) (corr : Option String) (now : Int)
        (eid : String) (s : WriteStore) (e : AppErr),
      (cancelTicketHandler c corr now eid s).1 = .error e →
      (cancelTicketHandler c corr now eid s).2 = (s, [])) := by
  refine ⟨?_, ?_, ?_, ?_⟩
  · intro c corr now bid eid s e h
    unfold bookTicketHandler at h ⊢
    cases hv : validateBookTicketCommand c with
    | some e1 => simp only [hv]
    | none =>
      simp only [hv] at h ⊢
      unfold transaction at h ⊢
      cases hb : bookBody c corr now bid eid s with
      | error e1 => simp only [hb]
      | ok pr =>
        obtain ⟨b, s1⟩ := pr
        rw [hb] at h
        exact absurd h (by simp)
  · intro c corr now bid eid s e h
    unfold reserveTicketHandler at h ⊢
    cases hv : validateReserveTicketCommand c with
    | some e1 => simp only [hv]
    | none =>
      simp only [hv] at h ⊢
      unfold transaction at h ⊢
      cases hb : reserveBody c corr now bid eid s with
      | error e1 => simp only [hb]
      | ok pr =>
        obtain ⟨r, s1⟩ := pr
        rw [hb] at h
        exact absurd h (by simp)
  · intro c corr now eid s e h
    unfold confirmTicketHandler at h ⊢
    cases hv : validateConfirmTicketCommand c with
    | some e1 => simp only [hv]
    | none =>
      simp only [hv] at h ⊢
      unfold transaction at h ⊢
      cases hb : confirmBody c corr now eid s with
      | error e1 => simp only [hb]
      | ok pr =>
        obtain ⟨b, s1⟩ := pr
        rw [hb] at h
        exact absurd h (by simp)
  · intro c corr now eid s e h
    unfold cancelTicketHandler at h ⊢
    cases hv : validateCancelTicketCommand c with
    | some e1 => simp only [hv]
    | none =>
      simp only [hv] at h ⊢
      unfold transaction at h ⊢
      cases hb : cancelBody c corr now eid s with
      | error e1 => simp only [hb]
      | ok pr =>
        obtain ⟨r, s1⟩ := pr
        rw [hb] at h
        exact absurd h (by simp)

/-- Witness for C10: confirming a nonexistent booking fails with
NotFound and leaves the (empty) write store untouched with nothing
published. -/
theorem c10_commands_atomic_on_error_witness :
    (confirmTicketHandler ⟨"b1", "p1"⟩ none 0 "e1" emptyWriteStore).2 =
      (emptyWriteStore, []) :=
  c10_commands_atomic_on_error.2.2.1 ⟨"b1", "p1"⟩ none 0 "e1" emptyWriteStore
    (.notFound ("Booking with ID " ++ "b1" ++ " not found")) rfl

/-- Confirm: missing booking row → BookingNotFoundError. -/
theorem confirmBody_notFound {c : ConfirmTicketCommand} {corr : Option String}
    {now : Int} {eid : String} {s : WriteStore}
    (hfind : findBooking s c.bookingId = none) :
    confirmBody c corr now eid s =
      .error (.notFound ("Booking with ID " ++ c.bookingId ++ " not found")) := by
  unfold confirmBody
  simp only [hfind]
  simp [throw, throwThe, MonadExceptOf.throw]

/-- Confirm: status outside {RESERVED, PENDING} → InvalidBookingState
reporting the current status. -/
theorem confirmBody_badState {c : ConfirmTicketCommand} {corr : Option String}
    {now : Int} {eid : String} {s : WriteStore} {b : Booking}
    (hfind : findBooking s c.bookingId = some b)
    (h1 : b.status ≠ BookingStatus.RESERVED) (h2 : b.status ≠ BookingStatus.PENDING) :
    confirmBody c corr now eid s =
      .error (.invalidBookingState b.status "RESERVED or PENDING") := by
  unfold confirmBody
  simp only [hfind]
  simp only [Bind.bind, Except.bind, throw, throwThe, MonadExceptOf.throw,
    pure, Except.pure]
  rw [if_pos ⟨h1, h2⟩]

/-- Confirm: a set, past expires_at → InvalidBookingState with the
"Reservation has expired" reason. -/
theorem confirmBody_expired {c : ConfirmTicketCommand} {corr : Option String}
    {now : Int} {eid : String} {s : WriteStore} {b : Booking} {t : Int}
    (hfind : findBooking s c.bookingId = some b)
    (hstate : b.status = BookingStatus.RESERVED ∨ b.status = BookingStatus.PENDING)
    (hexp : b.expiresAt = some t) (hlt : t < now) :
    confirmBody c corr now eid s =
      .error (.invalidBookingState b.status "Reservation has expired") := by
  unfold confirmBody
  simp only [hfind]
  simp only [Bind.bind, Except.bind, throw, throwThe, MonadExceptOf.throw,
    pure, Except.pure]
  rw [if_neg (by rcases hstate with h | h <;> simp [h])]
  simp only [hexp]
  rw [if_pos hlt]

/-- Confirm: all preconditions met → UPDATE to CONFIRMED with paymentId
set, confirmedAt = now and expires_at cleared. -/
theorem confirmBody_success {c : ConfirmTicketCommand} {corr : Option String}
    {now : Int} {eid : String} {s : WriteStore} {b : Booking}
    (hfind : findBooking s c.bookingId = some b)
    (hstate : b.status = BookingStatus.RESERVED ∨ b.status = BookingStatus.PENDING)
    (hexp : ∀ t, b.expiresAt = some t → ¬t < now) :
    ∃ s1, confirmBody c corr now eid s = .ok
      ({ b with
          status := .CONFIRMED
          paymentId := some c.paymentId
          confirmedAt := some now
          updatedAt := now
          expiresAt := none }, s1) := by
  unfold confirmBody
  simp only [hfind]
  simp only [Bind.bind, Except.bind, throw, throwThe, MonadExceptOf.throw,
    pure, Except.pure]
  rw [if_neg (by rcases hstate with h | h <;> simp [h])]
  cases hcase : b.expiresAt with
  | none => exact ⟨_, rfl⟩
  | some t =>
    dsimp only
    rw [if_neg (hexp t hcase)]
    exact ⟨_, rfl⟩

/-- Plumbing: a transaction error surfaces unchanged from
confirmTicketHandler, with the original store and nothing published. -/
theorem confirmHandler_of_body_error {c : ConfirmTicketCommand}
    {corr : Option String} {now : Int} {eid : String} {s : WriteStore} {e : AppErr}
    (hv : validateConfirmTicketCommand c = none)
    (h : confirmBody c corr now eid s = .error e) :
    confirmTicketHandler c corr now eid s = (.error e, s, []) := by
  unfold confirmTicketHandler
  simp only [hv]
  unfold transaction
  simp only [h]

/-- Plumbing: a transaction success commits the new store and publishes
the TICKET_CONFIRMED event. -/
theorem confirmHandler_of_body_ok {c : ConfirmTicketCommand}
    {corr : Option String} {now : Int} {eid : String} {s : WriteStore}
    {b1 : Booking} {s1 : WriteStore}
    (hv : validateConfirmTicketCommand c = none)
    (h : confirmBody c corr now eid s = .ok (b1, s1)) :
    confirmTicketHandler c corr now eid s =
      (.ok b1, s1, [⟨"TICKET_CONFIRMED", b1.id⟩]) := by
  unfold confirmTicketHandler
  simp only [hv]
  unfold transaction
  simp only [h]

/-- C7: given non-empty bookingId and paymentId, Confirm fails with
NotFound iff the booking is absent; with InvalidBookingState reporting
the current status iff the status is outside {RESERVED, PENDING}; with
the "Reservation has expired" reason iff a set expiresAt is < now; and
otherwise succeeds, setting CONFIRMED, the paymentId, confirmedAt =
now, and clearing expiresAt. -/
theorem c7_confirm_contract (c : ConfirmTicketCommand) (corr : Option String)
    (now : Int) (eid : String) (s : WriteStore)
    (hb : c.bookingId ≠ "") (hp : c.paymentId ≠ "") :
    (findBooking s c.bookingId = none →
      confirmTicketHandler c corr now eid s =
        (.error (.notFound ("Booking with ID " ++ c.bookingId ++ " not found")), s, [])) ∧
    (∀ b, findBooking s c.bookingId = some b →
      b.status ≠ BookingStatus.RESERVED → b.status ≠ BookingStatus.PENDING →
      confirmTicketHandler c corr now eid s =
        (.error (.invalidBookingState b.status "RESERVED or PENDING"), s, [])) ∧
    (∀ b t, findBooking s c.bookingId = some b →
      (b.status = BookingStatus.RESERVED ∨ b.status = BookingStatus.PENDING) →
      b.expiresAt = some t → t < now →
      confirmTicketHandler c corr now eid s =
        (.error (.invalidBookingState b.status "Reservation has expired"), s, [])) ∧
    (∀ b, findBooking s c.bookingId = some b →
      (b.status = BookingStatus.RESERVED ∨ b.status = BookingStatus.PENDING) →
      (∀ t, b.expiresAt = some t → ¬t < now) →
      ∃ b1 s1, confirmTicketHandler c corr now eid s =
          (.ok b1, s1, [⟨"TICKET_CONFIRMED", b1.id⟩]) ∧
        b1.status = BookingStatus.CONFIRMED ∧ b1.paymentId = some c.paymentId ∧
        b1.confirmedAt = some now ∧ b1.expiresAt = none) := by
  have hv : validateConfirmTicketCommand c = none := by
    unfold validateConfirmTicketCommand
    rw [if_neg hb, if_neg hp]
  refine ⟨?_, ?_, ?_, ?_⟩
  · intro hfind
    exact confirmHandler_of_body_error hv (confirmBody_notFound hfind)
  · intro b hfind h1 h2
    exact confirmHandler_of_body_error hv (confirmBody_badState hfind h1 h2)
  · intro b t hfind hstate hexp hlt
    exact confirmHandler_of_body_error hv (confirmBody_expired hfind hstate hexp hlt)
  · intro b hfind hstate hexp
    obtain ⟨s1, hok⟩ := confirmBody_success hfind hstate hexp
    exact ⟨_, s1, confirmHandler_of_body_ok hv hok, rfl, rfl, rfl, rfl⟩

/-- Witness for C7 on the store holding the live reservation b1. -/
theorem c7_confirm_contract_witness :
    (findBooking c1Store1 "b1" = none →
      confirmTicketHandler ⟨"b1", "p1"⟩ none 1 "e2" c1Store1 =
        (.error (.notFound ("Booking with ID " ++ "b1" ++ " not found")), c1Store1, [])) ∧
    (∀ b, findBooking c1Store1 "b1" = some b →
      b.status ≠ BookingStatus.RESERVED → b.status ≠ BookingStatus.PENDING →
      confirmTicketHandler ⟨"b1", "p1"⟩ none 1 "e2" c1Store1 =
        (.error (.invalidBookingState b.status "RESERVED or PENDING"), c1Store1, [])) ∧
    (∀ b t, findBooking c1Store1 "b1" = some b →
      (b.status = BookingStatus.RESERVED ∨ b.status = BookingStatus.PENDING) →
      b.expiresAt = some t → t < 1 →
      confirmTicketHandler ⟨"b1", "p1"⟩ none 1 "e2" c1Store1 =
        (.error (.invalidBookingState b.status "Reservation has expired"), c1Store1, [])) ∧
    (∀ b, findBooking c1Store1 "b1" = some b →
      (b.status = BookingStatus.RESERVED ∨ b.status = BookingStatus.PENDING) →
      (∀ t, b.expiresAt = some t → ¬t < 1) →
      ∃ b1 s1, confirmTicketHandler ⟨"b1", "p1"⟩ none 1 "e2" c1Store1 =
          (.ok b1, s1, [⟨"TICKET_CONFIRMED", b1.id⟩]) ∧
        b1.status = BookingStatus.CONFIRMED ∧ b1.paymentId = some "p1" ∧
        b1.confirmedAt = some 1 ∧ b1.expiresAt = none) :=
  c7_confirm_contract ⟨"b1", "p1"⟩ none 1 "e2" c1Store1 (by decide) (by decide)

/-- Cancel: with an existing booking, passing ownership check and a
cancellable status, the transaction commits status→CANCELLED with
cancelledAt = now, expires_at cleared, the refund (full price iff the
booking was CONFIRMED), and the seat row (when one is set) released to
AVAILABLE with booking_id and locked_until cleared. -/
theorem cancelBody_success {c : CancelTicketCommand} {corr : Option String}
    {now : Int} {eid : String} {s : WriteStore} {b : Booking}
    (hfind : findBooking s c.bookingId = some b)
    (huid : jsOrStr c.userId b.userId ≠ "")
    (hown : jsTruthyStr c.userId = true → b.userId = jsOrStr c.userId "")
    (hstate : b.status = BookingStatus.PENDING ∨ b.status = BookingStatus.RESERVED ∨
      b.status = BookingStatus.CONFIRMED) :
    ∃ s1, cancelBody c corr now eid s = .ok
      (({ b with
          status := .CANCELLED
          cancelledAt := some now
          updatedAt := now
          expiresAt := none },
        if b.status = BookingStatus.CONFIRMED then some b.price else none), s1) ∧
      s1.seats = (if jsTruthyStr b.seatNumber = true then
          updateWhere
            (fun r => r.scheduleId == b.scheduleId &&
              r.seatNumber == jsOrStr b.seatNumber "")
            (fun r => { r with
              status := .AVAILABLE
              bookingId := none
              lockedUntil := none
              updatedAt := now }) s.seats
        else s.seats) := by
  unfold cancelBody
  simp only [hfind]
  simp only [Bind.bind, Except.bind, throw, throwThe, MonadExceptOf.throw,
    pure, Except.pure]
  rw [if_neg huid]
  rw [if_neg (fun hc => hc.2 (hown hc.1))]
  rw [if_neg (by rcases hstate with h | h | h <;> simp [h])]
  exact ⟨_, rfl, rfl⟩

/-- Plumbing: a Cancel transaction success commits the new store and
publishes the TICKET_CANCELLED event. -/
theorem cancelHandler_of_body_ok {c : CancelTicketCommand}
    {corr : Option String} {now : Int} {eid : String} {s : WriteStore}
    {res : Booking × Option Int} {s1 : WriteStore}
    (hv : validateCancelTicketCommand c = none)
    (h : cancelBody c corr now eid s = .ok (res, s1)) :
    cancelTicketHandler c corr now eid s =
      (.ok res, s1, [⟨"TICKET_CANCELLED", res.1.id⟩]) := by
  unfold cancelTicketHandler
  simp only [hv]
  unfold transaction
  simp only [h]

/-- C5: a Cancel on a booking in {PENDING, RESERVED, CONFIRMED} (with
the bookingId present, a resolvable user and the ownership check
passing) succeeds: the booking becomes CANCELLED with cancelledAt = now
and expiresAt cleared, the refund is the full price iff the previous
status was CONFIRMED and null otherwise, and any set seat's
seat_availability row returns to AVAILABLE with bookingId and
lockedUntil cleared. -/
theorem c5_cancel_success (c : CancelTicketCommand) (corr : Option String)
    (now : Int) (eid : String) (s : WriteStore) (b : Booking)
    (hbid : c.bookingId ≠ "")
    (hfind : findBooking s c.bookingId = some b)
    (huid : jsOrStr c.userId b.userId ≠ "")
    (hown : jsTruthyStr c.userId = true → b.userId = jsOrStr c.userId "")
    (hstate : b.status = BookingStatus.PENDING ∨ b.status = BookingStatus.RESERVED ∨
      b.status = BookingStatus.CONFIRMED) :
    ∃ res s1, cancelTicketHandler c corr now eid s =
        (.ok res, s1, [⟨"TICKET_CANCELLED", res.1.id⟩]) ∧
      res.1.status = BookingStatus.CANCELLED ∧ res.1.cancelledAt = some now ∧
      res.1.expiresAt = none ∧
      res.2 = (if b.status = BookingStatus.CONFIRMED then some b.price else none) ∧
      ∀ sn, b.seatNumber = some sn → sn ≠ "" →
        ∀ r ∈ s1.seats, r.scheduleId = b.scheduleId → r.seatNumber = sn →
          r.status = SeatStatus.AVAILABLE ∧ r.bookingId = none ∧
            r.lockedUntil = none := by
  have hv : validateCancelTicketCommand c = none := by
    unfold validateCancelTicketCommand
    rw [if_neg hbid]
  obtain ⟨s1, hok, hseats⟩ := cancelBody_success hfind huid hown hstate
  refine ⟨_, s1, cancelHandler_of_body_ok hv hok, rfl, rfl, rfl, rfl, ?_⟩
  intro sn hsn hsn2 r hr hsch hseat
  have hts : jsTruthyStr b.seatNumber = true := by
    rw [hsn]; simp [jsTruthyStr, hsn2]
  have hj : jsOrStr b.seatNumber "" = sn := by
    rw [hsn]; simp [jsOrStr, hsn2]
  rw [hseats, if_pos hts] at hr
  rcases mem_updateWhere hr with ⟨y, hy, ⟨hpy, hxy⟩ | ⟨hpy, hxy⟩⟩ <;> subst hxy
  · exact ⟨rfl, rfl, rfl⟩
  · exfalso
    rw [hj] at hpy
    simp [hsch, hseat] at hpy

/-- The CONFIRMED b1 row as stored in c1Store2. -/
def c1ConfirmedBooking : Booking :=
  { id := "b1", userId := "u1", routeId := "r1", scheduleId := "s1",
    seatNumber := none, passengerName := "Alice",
    passengerEmail := "alice@example.com", passengerPhone := none,
    price := 25, currency := "USD", status := .CONFIRMED,
    paymentId := some "p1", reservedAt := some 0, confirmedAt := some 1,
    cancelledAt := none, expiresAt := none, createdAt := 0, updatedAt := 1 }

/-- Witness for C5: cancelling the CONFIRMED booking b1 at t = 2. -/
theorem c5_cancel_success_witness :
    ∃ res s1, cancelTicketHandler ⟨"b1", some "u1", none⟩ none 2 "e3" c1Store2 =
        (.ok res, s1, [⟨"TICKET_CANCELLED", res.1.id⟩]) ∧
      res.1.status = BookingStatus.CANCELLED ∧ res.1.cancelledAt = some 2 ∧
      res.1.expiresAt = none ∧
      res.2 = (if c1ConfirmedBooking.status = BookingStatus.CONFIRMED
        then some c1ConfirmedBooking.price else none) ∧
      ∀ sn, c1ConfirmedBooking.seatNumber = some sn → sn ≠ "" →
        ∀ r ∈ s1.seats, r.scheduleId = c1ConfirmedBooking.scheduleId →
          r.seatNumber = sn →
          r.status = SeatStatus.AVAILABLE ∧ r.bookingId = none ∧
            r.lockedUntil = none :=
  c5_cancel_success ⟨"b1", some "u1", none⟩ none 2 "e3" c1Store2
    c1ConfirmedBooking (by decide) (by decide) (by decide)
    (fun _ => by decide) (Or.inr (Or.inr (by decide)))

/-- A miss on the key predicate is a miss on any conjunction with it. -/
theorem find?_and_none {α} {p q : α → Bool} {l : List α}
    (h : l.find? p = none) : l.find? (fun x => p x && q x) = none := by
  apply List.find?_eq_none.2
  intro x hx
  rw [Bool.and_eq_true]
  rintro ⟨hp, -⟩
  exact (List.find?_eq_none.1 h x hx) hp

/-- The schema's UNIQUE(schedule_id, seat_number) constraint, as a
pairwise-distinct-keys property of the seats table. -/
def seatKeysUnique (s : WriteStore) : Prop :=
  s.seats.Pairwise (fun a b =>
    ¬(a.scheduleId = b.scheduleId ∧ a.seatNumber = b.seatNumber))

/-- Distinct keys specialise to: once a row matches a key, no later row
does. -/
theorem seatKeysUnique_pairwise {s : WriteStore} (hpw : seatKeysUnique s)
    (sch sn : String) :
    s.seats.Pairwise (fun a b =>
      (a.scheduleId == sch && a.seatNumber == sn) = true →
      (b.scheduleId == sch && b.seatNumber == sn) = false) := by
  refine hpw.imp ?_
  intro a b hab hpa
  rw [Bool.and_eq_true, beq_iff_eq, beq_iff_eq] at hpa
  rw [Bool.eq_false_iff]
  intro hpb
  rw [Bool.and_eq_true, beq_iff_eq, beq_iff_eq] at hpb
  exact hab ⟨hpa.1.trans hpb.1.symm, hpa.2.trans hpb.2.symm⟩

/-- Reserve: the seat check found an acquirable row → the transaction
inserts the RESERVED booking with expires_at = now + duration·60000 and
locks the seat until then. -/
theorem reserveBody_seat_acquired {c : ReserveTicketCommand} {corr : Option String}
    {now : Int} {bid eid : String} {s : WriteStore} {r0 : SeatRow}
    (hts : jsTruthyStr c.seatNumber = true)
    (hfound : s.seats.find? (fun r => r.scheduleId == c.scheduleId &&
      r.seatNumber == jsOrStr c.seatNumber "" && seatAcquirableRow r now) = some r0) :
    ∃ res s1, reserveBody c corr now bid eid s = .ok (res, s1) ∧
      res.1.id = bid ∧ res.1.status = BookingStatus.RESERVED ∧
      res.2 = now + jsOrInt c.reservationDurationMinutes
        DEFAULT_RESERVATION_DURATION_MINUTES * 60 * 1000 ∧
      res.1.expiresAt = some res.2 ∧
      s1.seats = updateWhere
        (fun r => r.scheduleId == c.scheduleId &&
          r.seatNumber == jsOrStr c.seatNumber "")
        (fun r => { r with
          status := .LOCKED
          bookingId := some bid
          lockedUntil := some res.2
          updatedAt := now }) s.seats := by
  unfold reserveBody
  simp only [Bind.bind, Except.bind, throw, throwThe, MonadExceptOf.throw,
    pure, Except.pure]
  rw [if_pos hts]
  simp only [hfound]
  refine ⟨_, _, rfl, rfl, rfl, rfl, rfl, ?_⟩
  rw [if_pos hts]

/-- Reserve: the seat check found no acquirable row →
InsufficientSeatsError and no writes. -/
theorem reserveBody_seat_unavailable {c : ReserveTicketCommand} {corr : Option String}
    {now : Int} {bid eid : String} {s : WriteStore}
    (hts : jsTruthyStr c.seatNumber = true)
    (hnone : s.seats.find? (fun r => r.scheduleId == c.scheduleId &&
      r.seatNumber == jsOrStr c.seatNumber "" && seatAcquirableRow r now) = none) :
    reserveBody c corr now bid eid s = .error
      (.insufficientSeats ("Seat " ++ jsOrStr c.seatNumber "" ++ " is not available")) := by
  unfold reserveBody
  simp only [Bind.bind, Except.bind, throw, throwThe, MonadExceptOf.throw,
    pure, Except.pure]
  rw [if_pos hts]
  simp only [hnone]

/-- Plumbing: a Reserve transaction error surfaces with the original
store and nothing published. -/
theorem reserveHandler_of_body_error {c : ReserveTicketCommand}
    {corr : Option String} {now : Int} {bid eid : String} {s : WriteStore} {e : AppErr}
    (hv : validateReserveTicketCommand c = none)
    (h : reserveBody c corr now bid eid s = .error e) :
    reserveTicketHandler c corr now bid eid s = (.error e, s, []) := by
  unfold reserveTicketHandler
  simp only [hv]
  unfold transaction
  simp only [h]

/-- Plumbing: a Reserve transaction success commits the new store and
publishes the TICKET_RESERVED event. -/
theorem reserveHandler_of_body_ok {c : ReserveTicketCommand}
    {corr : Option String} {now : Int} {bid eid : String} {s : WriteStore}
    {res : Booking × Int} {s1 : WriteStore}
    (hv : validateReserveTicketCommand c = none)
    (h : reserveBody c corr now bid eid s = .ok (res, s1)) :
    reserveTicketHandler c corr now bid eid s =
      (.ok res, s1, [⟨"TICKET_RESERVED", res.1.id⟩]) := by
  unfold reserveTicketHandler
  simp only [hv]
  unfold transaction
  simp only [h]

/-- C6: for a Reserve specifying a seat (validation passing, seat keys
unique per schema), the seat is acquired iff its row is AVAILABLE or
LOCKED with a stale lockedUntil < now; on success the booking is
RESERVED with expiresAt = now + duration (default 15 min) and the row
becomes LOCKED with lockedUntil = expiresAt and bookingId set;
otherwise the command fails with InsufficientSeats (Conflict) leaving
the store untouched. -/
theorem c6_reserve_seat_acquisition (c : ReserveTicketCommand) (corr : Option String)
    (now : Int) (bid eid : String) (s : WriteStore) (sn : String)
    (hv : validateReserveTicketCommand c = none)
    (hsn : c.seatNumber = some sn) (hsn2 : sn ≠ "")
    (hpw : seatKeysUnique s) :
    (∀ r, findSeat s c.scheduleId sn = some r → seatAcquirableRow r now = true →
      ∃ res s1, reserveTicketHandler c corr now bid eid s =
          (.ok res, s1, [⟨"TICKET_RESERVED", res.1.id⟩]) ∧
        res.1.status = BookingStatus.RESERVED ∧
        res.2 = now + jsOrInt c.reservationDurationMinutes
          DEFAULT_RESERVATION_DURATION_MINUTES * 60 * 1000 ∧
        res.1.expiresAt = some res.2 ∧
        findSeat s1 c.scheduleId sn = some { r with
          status := .LOCKED
          bookingId := some bid
          lockedUntil := some res.2
          updatedAt := now }) ∧
    (∀ r, findSeat s c.scheduleId sn = some r → seatAcquirableRow r now = false →
      reserveTicketHandler c corr now bid eid s =
        (.error (.insufficientSeats ("Seat " ++ sn ++ " is not available")), s, [])) ∧
    (findSeat s c.scheduleId sn = none →
      reserveTicketHandler c corr now bid eid s =
        (.error (.insufficientSeats ("Seat " ++ sn ++ " is not available")), s, [])) := by
  have hts : jsTruthyStr c.seatNumber = true := by
    rw [hsn]; simp [jsTruthyStr, hsn2]
  have hj : jsOrStr c.seatNumber "" = sn := by
    rw [hsn]; simp [jsOrStr, hsn2]
  refine ⟨?_, ?_, ?_⟩
  · intro r hfind hacq
    have hcomb := @find?_and_unique SeatRow
      (fun x => x.scheduleId == c.scheduleId && x.seatNumber == sn)
      (fun x => seatAcquirableRow x now) s.seats
      (seatKeysUnique_pairwise hpw c.scheduleId sn) r hfind
    rw [if_pos hacq] at hcomb
    rw [← hj] at hcomb
    obtain ⟨res, s1, hok, hid, hst, hexp, hexp2, hseats⟩ :=
      @reserveBody_seat_acquired c corr now bid eid s r hts hcomb
    refine ⟨res, s1, reserveHandler_of_body_ok hv hok, hst, hexp, hexp2, ?_⟩
    unfold findSeat
    rw [hseats, hj]
    rw [find?_updateWhere (fun x => x.scheduleId == c.scheduleId && x.seatNumber == sn)
      (fun x => { x with
        status := SeatStatus.LOCKED
        bookingId := some bid
        lockedUntil := some res.2
        updatedAt := now })
      (fun x => rfl) s.seats]
    unfold findSeat at hfind
    rw [hfind]
    rfl
  · intro r hfind hacq
    have hcomb := @find?_and_unique SeatRow
      (fun x => x.scheduleId == c.scheduleId && x.seatNumber == sn)
      (fun x => seatAcquirableRow x now) s.seats
      (seatKeysUnique_pairwise hpw c.scheduleId sn) r hfind
    rw [if_neg (by simp [hacq])] at hcomb
    rw [← hj] at hcomb
    have herr := @reserveBody_seat_unavailable c corr now bid eid s hts hcomb
    rw [hj] at herr
    exact reserveHandler_of_body_error hv herr
  · intro hfind
    have hnone : s.seats.find? (fun x => (x.scheduleId == c.scheduleId &&
        x.seatNumber == sn) && seatAcquirableRow x now) = none :=
      find?_and_none hfind
    rw [← hj] at hnone
    have herr := @reserveBody_seat_unavailable c corr now bid eid s hts hnone
    rw [hj] at herr
    exact reserveHandler_of_body_error hv herr

/-- An AVAILABLE seat row (s1, A1). -/
def availableSeatRow : SeatRow := ⟨"s1", "A1", none, .AVAILABLE, none, 0⟩

/-- A write store holding only that seat row. -/
def seatWriteStore : WriteStore := ⟨[], [availableSeatRow], []⟩

/-- A reserve command asking for seat A1 with the default duration. -/
def c6ReserveCmd : ReserveTicketCommand :=
  ⟨"u1", "r1", "s1", some "A1", "Alice", "alice@example.com", none, 25, none, none⟩

/-- Witness for C6 on the AVAILABLE seat. -/
theorem c6_reserve_seat_acquisition_witness :
    (∀ r, findSeat seatWriteStore c6ReserveCmd.scheduleId "A1" = some r →
      seatAcquirableRow r 0 = true →
      ∃ res s1, reserveTicketHandler c6ReserveCmd none 0 "b1" "e1" seatWriteStore =
          (.ok res, s1, [⟨"TICKET_RESERVED", res.1.id⟩]) ∧
        res.1.status = BookingStatus.RESERVED ∧
        res.2 = 0 + jsOrInt c6ReserveCmd.reservationDurationMinutes
          DEFAULT_RESERVATION_DURATION_MINUTES * 60 * 1000 ∧
        res.1.expiresAt = some res.2 ∧
        findSeat s1 c6ReserveCmd.scheduleId "A1" = some { r with
          status := .LOCKED
          bookingId := some "b1"
          lockedUntil := some res.2
          updatedAt := 0 }) ∧
    (∀ r, findSeat seatWriteStore c6ReserveCmd.scheduleId "A1" = some r →
      seatAcquirableRow r 0 = false →
      reserveTicketHandler c6ReserveCmd none 0 "b1" "e1" seatWriteStore =
        (.error (.insufficientSeats ("Seat " ++ "A1" ++ " is not available")),
          seatWriteStore, [])) ∧
    (findSeat seatWriteStore c6ReserveCmd.scheduleId "A1" = none →
      reserveTicketHandler c6ReserveCmd none 0 "b1" "e1" seatWriteStore =
        (.error (.insufficientSeats ("Seat " ++ "A1" ++ " is not available")),
          seatWriteStore, [])) :=
  c6_reserve_seat_acquisition c6ReserveCmd none 0 "b1" "e1" seatWriteStore "A1"
    (by decide) rfl (by decide) (by simp [seatKeysUnique, seatWriteStore])

/-- C8, amended: the reserve handler's own validation never inspects
reservationDurationMinutes — replacing the duration leaves
validateReserveTicketCommand's outcome unchanged — and the only
duration check in the service is the HTTP-layer Zod rule
z.number().min(5).max(60), whose failure the validate middleware
surfaces as ValidationError (HTTP 422), not BadRequest (400). -/
theorem c8_duration_check_location :
    (∀ (c : ReserveTicketCommand) (d : Option Int),
      validateReserveTicketCommand { c with reservationDurationMinutes := d } =
        validateReserveTicketCommand c) ∧
    (∀ v : Int, (v < 5 ∨ 60 < v) →
      validateMiddleware (zodReservationDurationOk (some v)) =
        .error (.validationFailed "Validation failed")) := by
  constructor
  · intro c d
    rfl
  · intro v hv
    have hz : zodReservationDurationOk (some v) = false := by
      simp only [zodReservationDurationOk, decide_eq_false_iff_not]
      rintro ⟨h5, h60⟩
      rcases hv with h | h <;> omega
    unfold validateMiddleware
    rw [hz]
    rfl

/-- C9, amended: a requested limit > 100 is clamped to 100 by
Math.min; a requested page < 1 fails with BadRequest when page ≠ 0;
but page = 0 is falsy in `query.page && query.page < 1`, skips the
check, and is treated as the default page 1. -/
theorem c9_limit_clamp_page_check :
    (∀ (q : GetUserTicketsQuery) (r : ReadStore) (l : Int),
      q.limit = some l → 100 < l → q.userId ≠ "" →
      (q.page = none ∨ q.page = some 0 ∨ ∃ p, q.page = some p ∧ 1 ≤ p) →
      ∃ res, getUserTicketsHandler q r = .ok res ∧ res.limit = 100) ∧
    (∀ (q : GetUserTicketsQuery) (r : ReadStore) (p : Int),
      q.page = some p → p < 1 → p ≠ 0 → q.userId ≠ "" →
      getUserTicketsHandler q r = .error (.badRequest "page must be at least 1")) ∧
    (∀ (q : GetUserTicketsQuery) (r : ReadStore),
      q.page = some 0 → q.userId ≠ "" →
      (q.limit = none ∨ q.limit = some 0 ∨ ∃ l, q.limit = some l ∧ 1 ≤ l) →
      ∃ res, getUserTicketsHandler q r = .ok res ∧ res.page = 1) := by
  refine ⟨?_, ?_, ?_⟩
  · intro q r l hl hl100 huser hpage
    have hne : l ≠ 0 := by omega
    have hp : ¬(jsTruthyInt q.page = true ∧ jsOrInt q.page 1 < 1) := by
      rintro ⟨ht, hlt⟩
      rcases hpage with h | h | ⟨p, hpp, hp1⟩
      · rw [h] at ht; simp [jsTruthyInt] at ht
      · rw [h] at ht; simp [jsTruthyInt] at ht
      · rw [hpp] at hlt
        simp only [jsOrInt] at hlt
        rw [if_neg (by omega)] at hlt
        omega
    have hlm : ¬(jsTruthyInt q.limit = true ∧ jsOrInt q.limit 1 < 1) := by
      rintro ⟨ht, hlt⟩
      rw [hl] at hlt
      simp only [jsOrInt] at hlt
      rw [if_neg hne] at hlt
      omega
    have hval : validateGetUserTicketsQuery q = none := by
      unfold validateGetUserTicketsQuery
      rw [if_neg huser, if_neg hp, if_neg hlm]
    unfold getUserTicketsHandler
    simp only [hval]
    refine ⟨_, rfl, ?_⟩
    show min (jsOrInt q.limit DEFAULT_LIMIT) MAX_LIMIT = 100
    rw [hl]
    simp only [jsOrInt]
    rw [if_neg hne]
    exact min_eq_right (by unfold MAX_LIMIT; omega)
  · intro q r p hp hp1 hp0 huser
    have h1 : jsTruthyInt q.page = true := by
      rw [hp]; simp [jsTruthyInt, hp0]
    have h2 : jsOrInt q.page 1 < 1 := by
      rw [hp]
      simp only [jsOrInt]
      rw [if_neg hp0]
      exact hp1
    have hval : validateGetUserTicketsQuery q =
        some (.badRequest "page must be at least 1") := by
      unfold validateGetUserTicketsQuery
      rw [if_neg huser, if_pos ⟨h1, h2⟩]
    unfold getUserTicketsHandler
    simp only [hval]
  · intro q r hpage huser hlimit
    have hp : ¬(jsTruthyInt q.page = true ∧ jsOrInt q.page 1 < 1) := by
      rintro ⟨ht, -⟩
      rw [hpage] at ht
      simp [jsTruthyInt] at ht
    have hlm : ¬(jsTruthyInt q.limit = true ∧ jsOrInt q.limit 1 < 1) := by
      rintro ⟨ht, hlt⟩
      rcases hlimit with h | h | ⟨l, hll, hl1⟩
      · rw [h] at ht; simp [jsTruthyInt] at ht
      · rw [h] at ht; simp [jsTruthyInt] at ht
      · rw [hll] at hlt
        simp only [jsOrInt] at hlt
        rw [if_neg (by omega)] at hlt
        omega
    have hval : validateGetUserTicketsQuery q = none := by
      unfold validateGetUserTicketsQuery
      rw [if_neg huser, if_neg hp, if_neg hlm]
    unfold getUserTicketsHandler
    simp only [hval]
    refine ⟨_, rfl, ?_⟩
    show jsOrInt q.page DEFAULT_PAGE = 1
    rw [hpage]
    rfl

/-- Witness for C8 at duration 4. -/
theorem c8_duration_check_location_witness :
    validateReserveTicketCommand
        { c8ReserveCmd with reservationDurationMinutes := some 4 } =
      validateReserveTicketCommand c8ReserveCmd ∧
    validateMiddleware (zodReservationDurationOk (some 4)) =
      .error (.validationFailed "Validation failed") :=
  ⟨c8_duration_check_location.1 c8ReserveCmd (some 4),
   c8_duration_check_location.2 4 (Or.inl (by norm_num))⟩

/-- Witness for C9: limit 150 clamps to 100, page -1 is rejected,
page 0 slips through as page 1. -/
theorem c9_limit_clamp_page_check_witness :
    (∃ res, getUserTicketsHandler ⟨"u1", none, none, some 150⟩ emptyReadStore =
      .ok res ∧ res.limit = 100) ∧
    getUserTicketsHandler ⟨"u1", none, some (-1), none⟩ emptyReadStore =
      .error (.badRequest "page must be at least 1") ∧
    (∃ res, getUserTicketsHandler ⟨"u1", none, some 0, none⟩ emptyReadStore =
      .ok res ∧ res.page = 1) :=
  ⟨c9_limit_clamp_page_check.1 ⟨"u1", none, none, some 150⟩ emptyReadStore 150
      rfl (by norm_num) (by decide) (Or.inl rfl),
   c9_limit_clamp_page_check.2.1 ⟨"u1", none, some (-1), none⟩ emptyReadStore
      (-1) rfl (by norm_num) (by norm_num) (by decide),
   c9_limit_clamp_page_check.2.2 ⟨"u1", none, some 0, none⟩ emptyReadStore
      rfl (by decide) (Or.inl rfl)⟩
